import Mathlib

/-!
Shallow embedding of the order resolution, claiming and fulfillment core of
the churchukbptrade repository.

Sources embedded here:
- src/lib/types.ts        (seller status, inventory item, eligibility predicates)
- src/unnamed/part_006    (sellers.ts: seller store, inventory primitives,
                           requiresMultipleSellers, resolveOrderToSellers)
- src/lib/order.ts        (processOrder and the multi-seller offer override)
- src/lib/orders.ts       (the claim engine: acceptOrderFull, claimOrderItems,
                           fulfillOrderItem, fulfillAllClaimedItems,
                           releaseOrderItem, closeOrder, cancelOrder, and the
                           seller order views)

Modelling conventions:
- TypeScript numbers that hold item quantities are modelled as Int
  (the code floors and clamps them on write, so integer inputs stay integral).
- Optional fields become Option; `undefined` is `none`.
- The file-per-record stores become association lists: the seller store is a
  List Seller looked up by id, and the per-order operations act on one
  StoredOrder together with the seller store (the per-order file lock makes
  every engine operation a sequential read-modify-write of exactly this
  state, so an operation is a pure function EngineState -> result * EngineState).
- `new Date().toISOString()` is modelled by threading an opaque `now : String`.
- JavaScript truthiness of `x || y` on possibly-zero numbers and possibly-empty
  strings is modelled explicitly (jsOrQty, jsOrName, assignedToOther).
-/

namespace BPTrade

/-! ### Data model (src/lib/types.ts) -/

/-- Seller account status, from SELLER_STATUSES in src/lib/types.ts. -/
inductive SellerStatus
  | pending_verification
  | active
  | banned
  | disabled
deriving DecidableEq, Repr

/-- One inventory line of a seller: SellerInventoryItem in src/lib/types.ts. -/
structure SellerInventoryItem where
  blueprintId : String
  quantity : Int
deriving DecidableEq, Repr

/-- Seller record with inline inventory: SellerWithInventory in src/lib/types.ts.
    passwordHash and createdAt are carried by the code but never read by the
    claim engine, the resolver or the view builder; they are omitted. -/
structure Seller where
  id : String
  discordId : String
  status : SellerStatus
  telegramChatId : Option String
  inventory : List SellerInventoryItem
  updatedAt : String
deriving DecidableEq, Repr

/-- canSellerReceiveOrders from src/lib/types.ts: only active sellers. -/
def canSellerReceiveOrders (s : Seller) : Bool :=
  s.status == SellerStatus.active

/-! ### Seller store and inventory primitives (src/unnamed/part_006, sellers.ts) -/

/-- The seller directory: one durable record per seller id. -/
abbrev SellerStore := List Seller

/-- getSellerById: read the seller record keyed by id. -/
def getSellerById (store : SellerStore) (sellerId : String) : Option Seller :=
  store.find? (fun s => s.id == sellerId)

/-- Quantity of a blueprint inside one inventory list
    (the `inventory.find(...)` / `item?.quantity || 0` pattern;
    for an Int q, `q || 0` equals q, since only 0 is falsy and then both are 0). -/
def invQtyOf (inv : List SellerInventoryItem) (blueprintId : String) : Int :=
  match inv.find? (fun i => i.blueprintId == blueprintId) with
  | none => 0
  | some it => it.quantity

/-- getSellerBlueprintQuantity from sellers.ts: 0 when the seller or the entry
    is absent. -/
def getSellerBlueprintQuantity (store : SellerStore) (sellerId blueprintId : String) : Int :=
  match getSellerById store sellerId with
  | none => 0
  | some s => invQtyOf s.inventory blueprintId

/-- Splice out the first inventory entry for a blueprint
    (`seller.inventory.splice(existingIndex, 1)`). -/
def removeFirstInv : List SellerInventoryItem → String → List SellerInventoryItem
  | [], _ => []
  | x :: xs, bid => if x.blueprintId == bid then xs else x :: removeFirstInv xs bid

/-- Overwrite the quantity of the first inventory entry for a blueprint
    (`seller.inventory[existingIndex].quantity = qty`). -/
def setFirstInvQty : List SellerInventoryItem → String → Int → List SellerInventoryItem
  | [], _, _ => []
  | x :: xs, bid, q =>
      if x.blueprintId == bid then { x with quantity := q } :: xs
      else x :: setFirstInvQty xs bid q

/-- Does the inventory already hold an entry for this blueprint
    (`existingIndex >= 0`)? -/
def invContains (inv : List SellerInventoryItem) (bid : String) : Bool :=
  inv.any (fun i => i.blueprintId == bid)

/-- The inventory mutation at the heart of updateSellerInventoryItem:
    `qty = Math.max(0, Math.floor(quantity))`; qty = 0 removes the entry,
    otherwise update in place or push a new entry. -/
def applyInventoryUpdate (inv : List SellerInventoryItem) (blueprintId : String)
    (quantity : Int) : List SellerInventoryItem :=
  let qty := max 0 quantity
  if qty = 0 then removeFirstInv inv blueprintId
  else if invContains inv blueprintId then setFirstInvQty inv blueprintId qty
  else inv ++ [⟨blueprintId, qty⟩]

/-- Persist an updated seller record: the file keyed by its id is overwritten. -/
def storeSetSeller (store : SellerStore) (s : Seller) : SellerStore :=
  store.map (fun t => if t.id == s.id then s else t)

/-- updateSellerInventoryItem from sellers.ts. Returns none exactly when the
    seller record does not exist (the code returns false and writes nothing). -/
def updateSellerInventoryItem (store : SellerStore) (sellerId blueprintId : String)
    (quantity : Int) (now : String) : Option SellerStore :=
  match getSellerById store sellerId with
  | none => none
  | some s =>
      let s' : Seller :=
        { s with inventory := applyInventoryUpdate s.inventory blueprintId quantity,
                 updatedAt := now }
      some (storeSetSeller store s')

/-- getActiveSellers from sellers.ts. -/
def getActiveSellers (store : SellerStore) : List Seller :=
  store.filter (fun s => s.status == SellerStatus.active)

/-! ### Order resolution (sellers.ts and src/lib/order.ts) -/

/-- A requested line item as passed to requiresMultipleSellers. -/
structure RequestedItem where
  blueprintId : String
  quantity : Int
deriving DecidableEq, Repr

/-- Can this seller cover one requested item at its full quantity
    (`availableQty < item.quantity` breaks the seller's loop)? -/
def sellerCoversItem (seller : Seller) (item : RequestedItem) : Bool :=
  decide (item.quantity ≤ invQtyOf seller.inventory item.blueprintId)

/-- requiresMultipleSellers from sellers.ts: scan the active sellers; the first
    one who covers every item makes the answer false, otherwise true. -/
def requiresMultipleSellers (store : SellerStore) (items : List RequestedItem) : Bool :=
  !(getActiveSellers store).any (fun seller => items.all (sellerCoversItem seller))

/-- A requested line item carrying its display name (itemsWithNames in
    processOrder). -/
structure NamedItem where
  blueprintId : String
  blueprintName : String
  quantity : Int
deriving DecidableEq, Repr

/-- One item inside a seller group (types.ts SellerOrderGroup.items). -/
structure SellerGroupItem where
  blueprintId : String
  blueprintName : String
  requestedQty : Int
  available : Bool
  availableQty : Int
deriving DecidableEq, Repr

/-- SellerOrderGroup from types.ts. -/
structure SellerOrderGroup where
  sellerId : String
  sellerDiscordId : String
  sellerTelegramChatId : Option String
  items : List SellerGroupItem
deriving DecidableEq, Repr

/-- Insert an item into the group of a seller, creating the group at the end on
    first use (the insertion-ordered Map in resolveOrderToSellers). -/
def pushGroupItem : List SellerOrderGroup → Seller → SellerGroupItem → List SellerOrderGroup
  | [], seller, it => [⟨seller.id, seller.discordId, seller.telegramChatId, [it]⟩]
  | g :: gs, seller, it =>
      if g.sellerId == seller.id then { g with items := g.items ++ [it] } :: gs
      else g :: pushGroupItem gs seller it

/-- resolveOrderToSellers from sellers.ts: outer loop over items, inner loop
    over active sellers; a seller holding quantity > 0 of the item receives a
    group entry. -/
def resolveOrderToSellers (store : SellerStore) (items : List NamedItem) :
    List SellerOrderGroup :=
  let activeSellers := getActiveSellers store
  items.foldl
    (fun groups item =>
      activeSellers.foldl
        (fun groups seller =>
          let availableQty := invQtyOf seller.inventory item.blueprintId
          if 0 < availableQty then
            pushGroupItem groups seller
              ⟨item.blueprintId, item.blueprintName, item.quantity,
               decide (item.quantity ≤ availableQty), availableQty⟩
          else groups)
        groups)
    []

/-! ### Order processing (src/lib/order.ts) -/

/-- A catalog blueprint; processOrder only consults id and name
    (`blueprint?.name || item.name`). -/
structure Blueprint where
  id : String
  name : String
deriving DecidableEq, Repr

/-- getBlueprintById from src/lib/blueprints.ts: first catalog entry by id. -/
def getBlueprintById (catalog : List Blueprint) (id : String) : Option Blueprint :=
  catalog.find? (fun bp => bp.id == id)

/-- A buyer-submitted line item (OrderItem in order.ts). -/
structure OrderItem where
  id : String
  name : String
  quantity : Int
deriving DecidableEq, Repr

/-- OrderRequest from order.ts (the honeypot field is checked before
    processOrder runs and is not part of processing). -/
structure OrderRequest where
  discordNick : String
  offer : String
  notes : Option String
  items : List OrderItem
deriving DecidableEq, Repr

/-- The fixed multi-seller disclosure string MULTI_SELLER_OFFER_MESSAGE. -/
def MULTI_SELLER_OFFER_MESSAGE : String :=
  "Це замовлення включає кількох продавців. Ціна/умови мають бути узгоджені в приватних повідомленнях (DM)."

/-- The `blueprint?.name || item.name` fallback: an absent blueprint or an
    empty catalog name (falsy in JS) falls back to the submitted name. -/
def jsOrName (bp : Option Blueprint) (fallback : String) : String :=
  match bp with
  | none => fallback
  | some b => if b.name = "" then fallback else b.name

/-- ProcessedOrder from order.ts. -/
structure ProcessedOrder where
  orderId : String
  buyerDiscordNick : String
  offer : String
  originalOffer : String
  notes : Option String
  sellerGroups : List SellerOrderGroup
  isMultiSeller : Bool
  sellerCount : Nat
  createdAt : String
deriving DecidableEq, Repr

/-- processOrder from order.ts. The generated order id and the creation
    timestamp are passed in (they come from generateOrderId and the clock). -/
def processOrder (store : SellerStore) (catalog : List Blueprint)
    (order : OrderRequest) (orderId createdAt : String) : ProcessedOrder :=
  let itemsWithNames : List NamedItem := order.items.map (fun item =>
    ⟨item.id, jsOrName (getBlueprintById catalog item.id) item.name, item.quantity⟩)
  let sellerGroups := resolveOrderToSellers store itemsWithNames
  let sellerCount := sellerGroups.length
  let itemsForCheck : List RequestedItem :=
    order.items.map (fun item => ⟨item.id, item.quantity⟩)
  let isMultiSeller := requiresMultipleSellers store itemsForCheck
  let originalOffer := order.offer.trim
  let offer := if isMultiSeller then MULTI_SELLER_OFFER_MESSAGE else originalOffer
  { orderId := orderId
    buyerDiscordNick := order.discordNick.trim
    offer := offer
    originalOffer := originalOffer
    notes := order.notes.map String.trim
    sellerGroups := sellerGroups
    isMultiSeller := isMultiSeller
    sellerCount := sellerCount
    createdAt := createdAt }

/-! ### Stored orders and the claim engine (src/lib/orders.ts) -/

/-- OrderStatus from orders.ts (`open` is a Lean keyword, hence open_). -/
inductive OrderStatus
  | open_
  | in_progress
  | completed
  | closed
  | cancelled
deriving DecidableEq, Repr

/-- ItemClaimStatus from orders.ts. -/
inductive ItemClaimStatus
  | unclaimed
  | claimed
  | fulfilled
deriving DecidableEq, Repr

/-- SellerOrderStatus from orders.ts (per-seller closure). -/
inductive SellerOrderStatus
  | active
  | closed
deriving DecidableEq, Repr

/-- SellerOrderState from orders.ts. -/
structure SellerOrderState where
  sellerId : String
  status : SellerOrderStatus
  closedAt : Option String
deriving DecidableEq, Repr

/-- OrderItemClaim from orders.ts. -/
structure OrderItemClaim where
  blueprintId : String
  blueprintName : String
  requestedQty : Int
  claimStatus : ItemClaimStatus
  claimedBySellerId : Option String
  claimedBySellerDiscordId : Option String
  claimedQuantity : Option Int
  claimedAt : Option String
  fulfilledAt : Option String
deriving DecidableEq, Repr

/-- StoredOrder from orders.ts: a ProcessedOrder plus claim tracking.
    An absent sellerStates array behaves exactly like an empty one, so it is a
    plain list here. -/
structure StoredOrder extends ProcessedOrder where
  sellerIds : List String
  status : OrderStatus
  assignedSellerId : Option String
  assignedSellerDiscordId : Option String
  assignedAt : Option String
  itemClaims : List OrderItemClaim
  sellerStates : List SellerOrderState
  closedAt : Option String
  closedBySellerId : Option String
deriving DecidableEq, Repr

/-- ClaimResult from orders.ts. -/
structure ClaimResult where
  success : Bool
  error : Option String
  claimedItems : Option (List String)
deriving DecidableEq, Repr

/-- The state an engine operation reads and writes under the per-order file
    lock: the seller store plus the one stored order the operation addresses. -/
structure EngineState where
  sellers : SellerStore
  order : StoredOrder
deriving DecidableEq, Repr

/-- A failed ClaimResult carrying its reason string. -/
def failResult (e : String) : ClaimResult := ⟨false, some e, none⟩

/-- `order.status === "closed" || order.status === "cancelled"`. -/
def isTerminalStatus (st : OrderStatus) : Bool :=
  st == OrderStatus.closed || st == OrderStatus.cancelled

/-- `order.assignedSellerId && order.assignedSellerId !== sellerId`: the guard
    is JS-truthy, so an empty-string assignee never triggers it. -/
def assignedToOther (order : StoredOrder) (sellerId : String) : Bool :=
  match order.assignedSellerId with
  | none => false
  | some a => a != "" && a != sellerId

/-- isOrderClosedBySeller from orders.ts. -/
def isOrderClosedBySeller (order : StoredOrder) (sellerId : String) : Bool :=
  match order.sellerStates.find? (fun s => s.sellerId == sellerId) with
  | none => false
  | some st => st.status == SellerOrderStatus.closed

/-- `claim.claimedQuantity || claim.requestedQty`: an absent or zero (falsy)
    claimed quantity falls back to the requested quantity. -/
def jsOrQty (o : Option Int) (d : Int) : Int :=
  match o with
  | none => d
  | some q => if q = 0 then d else q

/-- First claim of the order for a blueprint
    (`order.itemClaims.find((c) => c.blueprintId === blueprintId)`). -/
def findClaim (claims : List OrderItemClaim) (bid : String) : Option OrderItemClaim :=
  claims.find? (fun c => c.blueprintId == bid)

/-- Mutate the first claim for a blueprint in place. -/
def updateFirstClaim : List OrderItemClaim → String → (OrderItemClaim → OrderItemClaim) →
    List OrderItemClaim
  | [], _, _ => []
  | c :: cs, bid, f =>
      if c.blueprintId == bid then f c :: cs else c :: updateFirstClaim cs bid f

def msgOrderNotFound : String := "Замовлення не знайдено"
def msgOrderClosed : String := "Замовлення вже закрите"
def msgAssignedOther : String := "Замовлення вже прийняте іншим продавцем"
def msgNoPermission : String := "У вас немає дозволу приймати замовлення"
def msgNothingToClaim : String := "Немає позицій для прийняття"
def msgItemNotFound : String := "Позицію не знайдено"
def msgCannotFulfill : String := "Ви не можете виконати цю позицію"
def msgAlreadyFulfilled : String := "Позиція вже виконана"
def msgInventoryUpdateFailed : String := "Не вдалося оновити інвентар"
def msgNothingToFulfill : String := "Немає позицій для виконання"
def msgCannotRelease : String := "Ви не можете скасувати цю позицію"
def msgCannotReleaseFulfilled : String := "Не можна скасувати виконану позицію"
def msgAlreadyClosedByYou : String := "Ви вже закрили це замовлення"
def msgCannotClose : String := "Ви не можете закрити це замовлення"
def msgFulfillFirst : String := "Спочатку виконайте всі ваші прийняті позиції"

def msgItemTaken (name : String) : String :=
  s!"Позиція \"{name}\" вже прийнята іншим продавцем"

def msgAcceptInsufficient (name : String) (avail need : Int) : String :=
  s!"Недостатньо \"{name}\" в інвентарі (є {avail}, потрібно {need})"

def msgFulfillInsufficient (avail need : Int) : String :=
  s!"Недостатньо креслень на складі (є: {avail}, потрібно: {need})"

def msgFulfillAllInsufficient (name : String) (avail need : Int) : String :=
  s!"Недостатньо \"{name}\" на складі (є: {avail}, потрібно: {need})"

def msgFulfillAllUpdateFailed (name : String) : String :=
  s!"Не вдалося оновити інвентар для \"{name}\""

/-- The precondition loop of acceptOrderFull over the order's item claims:
    the first item claimed by someone else, or with insufficient seller
    inventory, aborts the call; otherwise every blueprint id is collected. -/
def acceptItemsCheck (sellers : SellerStore) (sellerId : String) :
    List OrderItemClaim → Except String (List String)
  | [] => Except.ok []
  | c :: cs =>
      if c.claimStatus != ItemClaimStatus.unclaimed &&
         c.claimedBySellerId != some sellerId then
        Except.error (msgItemTaken c.blueprintName)
      else
        let sellerQty := getSellerBlueprintQuantity sellers sellerId c.blueprintId
        if sellerQty < c.requestedQty then
          Except.error (msgAcceptInsufficient c.blueprintName sellerQty c.requestedQty)
        else
          match acceptItemsCheck sellers sellerId cs with
          | Except.error e => Except.error e
          | Except.ok rest => Except.ok (c.blueprintId :: rest)

/-- acceptOrderFull from orders.ts. -/
def acceptOrderFull (st : EngineState) (sellerId now : String) :
    ClaimResult × EngineState :=
  let order := st.order
  if isTerminalStatus order.status then (failResult msgOrderClosed, st)
  else if assignedToOther order sellerId then (failResult msgAssignedOther, st)
  else
    match getSellerById st.sellers sellerId with
    | none => (failResult msgNoPermission, st)
    | some seller =>
        if !canSellerReceiveOrders seller then (failResult msgNoPermission, st)
        else
          match acceptItemsCheck st.sellers sellerId order.itemClaims with
          | Except.error e => (failResult e, st)
          | Except.ok claimedItems =>
              let claims' := order.itemClaims.map (fun c =>
                { c with claimStatus := ItemClaimStatus.claimed,
                         claimedBySellerId := some sellerId,
                         claimedBySellerDiscordId := some seller.discordId,
                         claimedQuantity := some c.requestedQty,
                         claimedAt := some now })
              let order' :=
                { order with assignedSellerId := some sellerId,
                             assignedSellerDiscordId := some seller.discordId,
                             assignedAt := some now,
                             status := OrderStatus.in_progress,
                             itemClaims := claims' }
              (⟨true, none, some claimedItems⟩, { st with order := order' })

/-- The claiming loop of claimOrderItems: walk the requested blueprint ids,
    skipping unknown items, items claimed by someone else, and items the
    seller cannot cover; claim the rest in place. -/
def claimItemsLoop (sellers : SellerStore) (sellerId discordId now : String) :
    List String → List OrderItemClaim → List OrderItemClaim × List String
  | [], claims => (claims, [])
  | bid :: rest, claims =>
      match findClaim claims bid with
      | none => claimItemsLoop sellers sellerId discordId now rest claims
      | some c =>
          if c.claimStatus != ItemClaimStatus.unclaimed &&
             c.claimedBySellerId != some sellerId then
            claimItemsLoop sellers sellerId discordId now rest claims
          else if getSellerBlueprintQuantity sellers sellerId c.blueprintId <
                  c.requestedQty then
            claimItemsLoop sellers sellerId discordId now rest claims
          else
            let claims' := updateFirstClaim claims bid (fun cc =>
              { cc with claimStatus := ItemClaimStatus.claimed,
                        claimedBySellerId := some sellerId,
                        claimedBySellerDiscordId := some discordId,
                        claimedQuantity := some cc.requestedQty,
                        claimedAt := some now })
            let out := claimItemsLoop sellers sellerId discordId now rest claims'
            (out.1, bid :: out.2)

/-- claimOrderItems from orders.ts. `blueprintIds = none` claims every
    currently unclaimed item. -/
def claimOrderItems (st : EngineState) (sellerId : String)
    (blueprintIds : Option (List String)) (now : String) :
    ClaimResult × EngineState :=
  let order := st.order
  if isTerminalStatus order.status then (failResult msgOrderClosed, st)
  else if assignedToOther order sellerId then (failResult msgAssignedOther, st)
  else
    match getSellerById st.sellers sellerId with
    | none => (failResult msgNoPermission, st)
    | some seller =>
        if !canSellerReceiveOrders seller then (failResult msgNoPermission, st)
        else
          let itemsToClaim :=
            match blueprintIds with
            | some ids => ids
            | none =>
                (order.itemClaims.filter
                  (fun c => c.claimStatus == ItemClaimStatus.unclaimed)).map
                  (fun c => c.blueprintId)
          let out := claimItemsLoop st.sellers sellerId seller.discordId now
            itemsToClaim order.itemClaims
          if out.2.isEmpty then (failResult msgNothingToClaim, st)
          else
            let status' :=
              if order.status == OrderStatus.open_ then OrderStatus.in_progress
              else order.status
            (⟨true, none, some out.2⟩,
             { st with order := { order with itemClaims := out.1, status := status' } })

/-- fulfillOrderItem from orders.ts. Note that it checks neither the order's
    closed/cancelled status nor the per-seller closure. -/
def fulfillOrderItem (st : EngineState) (sellerId blueprintId now : String) :
    ClaimResult × EngineState :=
  let order := st.order
  match findClaim order.itemClaims blueprintId with
  | none => (failResult msgItemNotFound, st)
  | some claim =>
      if claim.claimedBySellerId != some sellerId then
        (failResult msgCannotFulfill, st)
      else if claim.claimStatus == ItemClaimStatus.fulfilled then
        (failResult msgAlreadyFulfilled, st)
      else
        let currentQty := getSellerBlueprintQuantity st.sellers sellerId blueprintId
        let quantityToFulfill := jsOrQty claim.claimedQuantity claim.requestedQty
        if currentQty < quantityToFulfill then
          (failResult (msgFulfillInsufficient currentQty quantityToFulfill), st)
        else
          match updateSellerInventoryItem st.sellers sellerId blueprintId
              (currentQty - quantityToFulfill) now with
          | none => (failResult msgInventoryUpdateFailed, st)
          | some sellers' =>
              let claims' := updateFirstClaim order.itemClaims blueprintId (fun c =>
                { c with claimStatus := ItemClaimStatus.fulfilled,
                         fulfilledAt := some now })
              let status' :=
                if claims'.all (fun c => c.claimStatus == ItemClaimStatus.fulfilled)
                then OrderStatus.completed else order.status
              (⟨true, none, some [blueprintId]⟩,
               ⟨sellers', { order with itemClaims := claims', status := status' }⟩)

/-- Which claims fulfillAllClaimedItems targets: this seller's claims in state
    "claimed". -/
def fulfillTarget (sellerId : String) (c : OrderItemClaim) : Bool :=
  c.claimedBySellerId == some sellerId && c.claimStatus == ItemClaimStatus.claimed

/-- The first pass of fulfillAllClaimedItems: the first target item the seller
    cannot cover from current inventory aborts the whole call. -/
def fulfillPrecheck (sellers : SellerStore) (sellerId : String) :
    List OrderItemClaim → Option String
  | [] => none
  | c :: cs =>
      let currentQty := getSellerBlueprintQuantity sellers sellerId c.blueprintId
      let quantityNeeded := jsOrQty c.claimedQuantity c.requestedQty
      if currentQty < quantityNeeded then
        some (msgFulfillAllInsufficient c.blueprintName currentQty quantityNeeded)
      else fulfillPrecheck sellers sellerId cs

/-- The second pass of fulfillAllClaimedItems, walking the full claim list and
    processing the target claims in order. On an inventory-update failure it
    stops; the error carries the seller store as already written and the
    blueprint ids fulfilled before the failure (the code returns the failure
    at that point and never writes the order back). -/
def fulfillPass (sellerId now : String) :
    SellerStore → List OrderItemClaim →
    Except (SellerStore × List String × String)
      (SellerStore × List OrderItemClaim × List String)
  | sellers, [] => Except.ok (sellers, [], [])
  | sellers, c :: cs =>
      if fulfillTarget sellerId c then
        let currentQty := getSellerBlueprintQuantity sellers sellerId c.blueprintId
        let quantityToFulfill := jsOrQty c.claimedQuantity c.requestedQty
        match updateSellerInventoryItem sellers sellerId c.blueprintId
            (currentQty - quantityToFulfill) now with
        | none => Except.error (sellers, [], msgFulfillAllUpdateFailed c.blueprintName)
        | some sellers' =>
            let c' := { c with claimStatus := ItemClaimStatus.fulfilled,
                               fulfilledAt := some now }
            match fulfillPass sellerId now sellers' cs with
            | Except.error (sf, ids, e) => Except.error (sf, c.blueprintId :: ids, e)
            | Except.ok (sf, claims, ids) =>
                Except.ok (sf, c' :: claims, c.blueprintId :: ids)
      else
        match fulfillPass sellerId now sellers cs with
        | Except.error r => Except.error r
        | Except.ok (sf, claims, ids) => Except.ok (sf, c :: claims, ids)

/-- fulfillAllClaimedItems from orders.ts. -/
def fulfillAllClaimedItems (st : EngineState) (sellerId now : String) :
    ClaimResult × EngineState :=
  let order := st.order
  let itemsToFulfill := order.itemClaims.filter (fulfillTarget sellerId)
  if itemsToFulfill.isEmpty then (failResult msgNothingToFulfill, st)
  else
    match fulfillPrecheck st.sellers sellerId itemsToFulfill with
    | some e => (failResult e, st)
    | none =>
        match fulfillPass sellerId now st.sellers order.itemClaims with
        | Except.error (sellers', _, e) =>
            (failResult e, { st with sellers := sellers' })
        | Except.ok (sellers', claims', fulfilledItems) =>
            let status' :=
              if claims'.all (fun c => c.claimStatus == ItemClaimStatus.fulfilled)
              then OrderStatus.completed else order.status
            (⟨true, none, some fulfilledItems⟩,
             ⟨sellers', { order with itemClaims := claims', status := status' }⟩)

/-- releaseOrderItem from orders.ts. -/
def releaseOrderItem (st : EngineState) (sellerId blueprintId : String) :
    ClaimResult × EngineState :=
  let order := st.order
  if isTerminalStatus order.status then (failResult msgOrderClosed, st)
  else
    match findClaim order.itemClaims blueprintId with
    | none => (failResult msgItemNotFound, st)
    | some claim =>
        if claim.claimedBySellerId != some sellerId then
          (failResult msgCannotRelease, st)
        else if claim.claimStatus == ItemClaimStatus.fulfilled then
          (failResult msgCannotReleaseFulfilled, st)
        else
          let claims' := updateFirstClaim order.itemClaims blueprintId (fun c =>
            { c with claimStatus := ItemClaimStatus.unclaimed,
                     claimedBySellerId := none,
                     claimedBySellerDiscordId := none,
                     claimedQuantity := none,
                     claimedAt := none })
          let order1 := { order with itemClaims := claims' }
          let order2 :=
            if order.assignedSellerId == some sellerId then
              let stillHasClaims := claims'.any (fun c =>
                c.claimedBySellerId == some sellerId &&
                c.claimStatus != ItemClaimStatus.unclaimed)
              if !stillHasClaims then
                { order1 with assignedSellerId := none,
                              assignedSellerDiscordId := none,
                              assignedAt := none }
              else order1
            else order1
          let hasAnyClaims := claims'.any (fun c =>
            c.claimStatus != ItemClaimStatus.unclaimed)
          let order3 :=
            if !hasAnyClaims then { order2 with status := OrderStatus.open_ }
            else order2
          (⟨true, none, some [blueprintId]⟩, { st with order := order3 })

/-- The find-or-push-then-set of closeOrder on the per-seller states. -/
def setSellerStateClosed : List SellerOrderState → String → String →
    List SellerOrderState
  | [], sellerId, now => [⟨sellerId, SellerOrderStatus.closed, some now⟩]
  | s :: ss, sellerId, now =>
      if s.sellerId == sellerId then
        { s with status := SellerOrderStatus.closed, closedAt := some now } :: ss
      else s :: setSellerStateClosed ss sellerId now

/-- closeOrder from orders.ts: the admin path force-closes globally, the
    seller path records a per-seller closure and closes globally only when
    every item is fulfilled. -/
def closeOrder (st : EngineState) (sellerId : String) (isAdmin : Bool)
    (now : String) : ClaimResult × EngineState :=
  let order := st.order
  if isAdmin then
    (⟨true, none, none⟩,
     { st with order := { order with status := OrderStatus.closed,
                                     closedAt := some now,
                                     closedBySellerId := some sellerId } })
  else if isTerminalStatus order.status then (failResult msgOrderClosed, st)
  else if isOrderClosedBySeller order sellerId then
    (failResult msgAlreadyClosedByYou, st)
  else
    let isAssigned := order.assignedSellerId == some sellerId
    let hasClaimedItems := order.itemClaims.any (fun c =>
      c.claimedBySellerId == some sellerId)
    if !isAssigned && !hasClaimedItems then (failResult msgCannotClose, st)
    else
      let myUnfulfilled := order.itemClaims.filter (fun c =>
        c.claimedBySellerId == some sellerId &&
        c.claimStatus != ItemClaimStatus.fulfilled)
      if !myUnfulfilled.isEmpty then (failResult msgFulfillFirst, st)
      else
        let states' := setSellerStateClosed order.sellerStates sellerId now
        let allFulfilled := order.itemClaims.all (fun c =>
          c.claimStatus == ItemClaimStatus.fulfilled)
        let order' :=
          if allFulfilled then
            { order with sellerStates := states',
                         status := OrderStatus.closed,
                         closedAt := some now,
                         closedBySellerId := some sellerId }
          else { order with sellerStates := states' }
        (⟨true, none, none⟩, { st with order := order' })

/-- cancelOrder from orders.ts (admin only). -/
def cancelOrder (st : EngineState) (now : String) : ClaimResult × EngineState :=
  let order := st.order
  if isTerminalStatus order.status then (failResult msgOrderClosed, st)
  else
    (⟨true, none, none⟩,
     { st with order := { order with status := OrderStatus.cancelled,
                                     closedAt := some now } })

/-! ### Seller order views (src/lib/orders.ts) -/

/-- One item of a SellerOrderView. -/
structure SellerViewItem where
  blueprintId : String
  blueprintName : String
  requestedQty : Int
  available : Bool
  availableQty : Int
  claimStatus : ItemClaimStatus
  claimedByMe : Bool
  claimedBySellerId : Option String
  claimedBySellerDiscordId : Option String
  claimedQuantity : Option Int
deriving DecidableEq, Repr

/-- SellerOrderView from orders.ts. -/
structure SellerOrderView where
  orderId : String
  buyerDiscordNick : String
  offer : String
  notes : Option String
  isMultiSeller : Bool
  createdAt : String
  status : OrderStatus
  isAssignedToMe : Bool
  isClosedByMe : Bool
  items : List SellerViewItem
  canAcceptFull : Bool
  claimableItemCount : Nat
  myClaimedItemCount : Nat
deriving DecidableEq, Repr

/-- The accumulators of buildSellerOrderView's item loop. -/
structure ViewAcc where
  items : List SellerViewItem
  claimable : Nat
  myClaimed : Nat
  canAcceptAll : Bool
deriving DecidableEq, Repr

/-- The projection of one visible claim into a view item (the object pushed
    by buildSellerOrderView's loop). -/
def mkViewItem (sellers : SellerStore) (sellerId : String) (c : OrderItemClaim) :
    SellerViewItem :=
  let sellerQty := getSellerBlueprintQuantity sellers sellerId c.blueprintId
  ⟨c.blueprintId, c.blueprintName, c.requestedQty,
   decide (c.requestedQty ≤ sellerQty), sellerQty, c.claimStatus,
   c.claimedBySellerId == some sellerId, c.claimedBySellerId,
   c.claimedBySellerDiscordId, c.claimedQuantity⟩

/-- The item loop of buildSellerOrderView: visibility filtering plus the
    claimable / my-claimed counters and the canAcceptAll flag. -/
def buildViewLoop (sellers : SellerStore) (sellerId : String)
    (isAssignedToMe : Bool) : List OrderItemClaim → ViewAcc
  | [] => ⟨[], 0, 0, true⟩
  | c :: cs =>
      let rest := buildViewLoop sellers sellerId isAssignedToMe cs
      let sellerQty := getSellerBlueprintQuantity sellers sellerId c.blueprintId
      let isClaimedByMe := c.claimedBySellerId == some sellerId
      let isUnclaimed := c.claimStatus == ItemClaimStatus.unclaimed
      let canSeeUnclaimed := isUnclaimed && decide (0 < sellerQty)
      let canSee := isClaimedByMe || canSeeUnclaimed || isAssignedToMe
      if !canSee then
        { rest with canAcceptAll := rest.canAcceptAll && !isUnclaimed }
      else
        { items := mkViewItem sellers sellerId c :: rest.items
          claimable := if canSeeUnclaimed then rest.claimable + 1 else rest.claimable
          myClaimed := if isClaimedByMe then rest.myClaimed + 1 else rest.myClaimed
          canAcceptAll := rest.canAcceptAll &&
            !(isUnclaimed && decide (sellerQty < c.requestedQty)) }

/-- buildSellerOrderView from orders.ts: none when no item is visible to this
    seller (the sellerDiscordId parameter of the source is unused there too). -/
def buildSellerOrderView (sellers : SellerStore) (order : StoredOrder)
    (sellerId _sellerDiscordId : String) : Option SellerOrderView :=
  let isAssignedToMe := order.assignedSellerId == some sellerId
  let isClosedByMe := isOrderClosedBySeller order sellerId
  let acc := buildViewLoop sellers sellerId isAssignedToMe order.itemClaims
  if acc.items.isEmpty then none
  else
    let allUnclaimed := order.itemClaims.all (fun c =>
      c.claimStatus == ItemClaimStatus.unclaimed)
    let canAcceptFull := acc.canAcceptAll && allUnclaimed &&
      (acc.items.length == order.itemClaims.length)
    some
      { orderId := order.orderId
        buyerDiscordNick := order.buyerDiscordNick
        offer := order.offer
        notes := order.notes
        isMultiSeller := order.isMultiSeller
        createdAt := order.createdAt
        status := order.status
        isAssignedToMe := isAssignedToMe
        isClosedByMe := isClosedByMe
        items := acc.items
        canAcceptFull := canAcceptFull
        claimableItemCount := acc.claimable
        myClaimedItemCount := acc.myClaimed }

/-- The per-order body of getOrdersForSeller's loop: skip globally terminal
    orders, orders this seller self-closed, orders assigned to someone else;
    otherwise project the seller view (none when no item is visible). -/
def sellerOrderListEntry (sellers : SellerStore) (sellerId : String)
    (seller : Seller) (order : StoredOrder) : Option SellerOrderView :=
  if isTerminalStatus order.status then none
  else if isOrderClosedBySeller order sellerId then none
  else if assignedToOther order sellerId then none
  else buildSellerOrderView sellers order sellerId seller.discordId

/-- getOrdersForSeller from orders.ts, over a given list of stored orders
    (getAllOrders supplies them newest first; the ordering is irrelevant to
    visibility). -/
def getOrdersForSeller (sellers : SellerStore) (orders : List StoredOrder)
    (sellerId : String) : List SellerOrderView :=
  match getSellerById sellers sellerId with
  | none => []
  | some seller =>
      if !canSellerReceiveOrders seller then []
      else orders.filterMap (sellerOrderListEntry sellers sellerId seller)

/-! ### Concrete fixtures used by witnesses and counterexamples -/

/-- A single active seller holding five of blueprint "a". -/
def sSeller : Seller := ⟨"s1", "d1", SellerStatus.active, none, [⟨"a", 5⟩], "t0"⟩

/-- A pending-verification seller. -/
def sPending : Seller := ⟨"s2", "d2", SellerStatus.pending_verification, none, [⟨"a", 9⟩], "t0"⟩

/-- A completed one-item order whose single item "a" was already fulfilled by
    seller s1. -/
def sOrderFulfilled : StoredOrder :=
  { orderId := "o1", buyerDiscordNick := "buyer", offer := "x", originalOffer := "x",
    notes := none, sellerGroups := [], isMultiSeller := false, sellerCount := 1,
    createdAt := "t0", sellerIds := ["s1"], status := OrderStatus.completed,
    assignedSellerId := some "s1", assignedSellerDiscordId := some "d1",
    assignedAt := some "t0",
    itemClaims := [⟨"a", "A", 2, ItemClaimStatus.fulfilled, some "s1", some "d1",
      some 2, some "t0", some "t0"⟩],
    sellerStates := [], closedAt := none, closedBySellerId := none }

/-- The claim of an order item "a" held (claimed, not yet fulfilled) by s1. -/
def sClaimedItem : OrderItemClaim :=
  ⟨"a", "A", 2, ItemClaimStatus.claimed, some "s1", some "d1", some 2, some "t0", none⟩

/-- An admin-closed order that still carries s1's unfulfilled claim on "a". -/
def sClosedOrder : StoredOrder :=
  { sOrderFulfilled with
      status := OrderStatus.closed,
      itemClaims := [sClaimedItem] }

/-- An order whose item "a" is claimed by s1 with claimed quantity 9, more
    than s1's stock of 5. -/
def sOrderTooBig : StoredOrder :=
  { sOrderFulfilled with
      status := OrderStatus.in_progress,
      assignedSellerId := none, assignedSellerDiscordId := none, assignedAt := none,
      itemClaims := [⟨"a", "A", 9, ItemClaimStatus.claimed, some "s1", some "d1",
        some 9, some "t0", none⟩] }

/-- An in-progress order assigned to s1 whose single item "a" s1 has claimed. -/
def sAssignedOrder : StoredOrder :=
  { sOrderFulfilled with
      status := OrderStatus.in_progress,
      itemClaims := [sClaimedItem] }

/-- An open, unassigned order with one unclaimed item "a" (quantity 2). -/
def sOpenOrder : StoredOrder :=
  { sOrderFulfilled with
      status := OrderStatus.open_,
      assignedSellerId := none, assignedSellerDiscordId := none, assignedAt := none,
      itemClaims := [⟨"a", "A", 2, ItemClaimStatus.unclaimed, none, none, none,
        none, none⟩] }

/-- An open in-progress order with s1's claim on "a", unassigned. -/
def sClaimedOrder : StoredOrder :=
  { sOrderFulfilled with
      status := OrderStatus.in_progress,
      assignedSellerId := none, assignedSellerDiscordId := none, assignedAt := none,
      itemClaims := [sClaimedItem] }

/-! ### Inventory lemmas -/

theorem find?_removeFirstInv_other (inv : List SellerInventoryItem)
    (bid bid' : String) (hne : bid' ≠ bid) :
    (removeFirstInv inv bid).find? (fun i => i.blueprintId == bid') =
      inv.find? (fun i => i.blueprintId == bid') := by
  induction inv with
  | nil => rfl
  | cons x xs ih =>
      by_cases hx : x.blueprintId = bid
      · have hx' : (x.blueprintId == bid') = false := by
          simp [hx]; exact fun h => hne h.symm
        simp only [removeFirstInv, beq_iff_eq, hx, if_true]
        rw [List.find?_cons_of_neg _ (by simp [hx'])]
      · simp only [removeFirstInv, beq_iff_eq, hx, if_false]
        by_cases hx' : x.blueprintId = bid'
        · rw [List.find?_cons_of_pos _ (by simp [hx']),
              List.find?_cons_of_pos _ (by simp [hx'])]
        · rw [List.find?_cons_of_neg _ (by simp [hx']),
              List.find?_cons_of_neg _ (by simp [hx']), ih]

theorem removeFirstInv_no_entry (inv : List SellerInventoryItem) (bid : String)
    (hwf : (inv.map (fun i => i.blueprintId)).Nodup) :
    ∀ i ∈ removeFirstInv inv bid, i.blueprintId ≠ bid := by
  induction inv with
  | nil => simp [removeFirstInv]
  | cons x xs ih =>
      simp only [List.map_cons, List.nodup_cons] at hwf
      by_cases hx : x.blueprintId = bid
      · simp only [removeFirstInv, beq_iff_eq, hx, if_true]
        intro i hi hbid
        exact hwf.1 (by
          rw [hx, ← hbid]
          exact List.mem_map_of_mem (fun j => j.blueprintId) hi)
      · simp only [removeFirstInv, beq_iff_eq, hx, if_false]
        intro i hi
        rcases List.mem_cons.mp hi with h | h
        · rw [h]; exact hx
        · exact ih hwf.2 i h

theorem find?_setFirstInvQty_self (inv : List SellerInventoryItem)
    (bid : String) (q : Int) (hc : invContains inv bid = true) :
    invQtyOf (setFirstInvQty inv bid q) bid = q := by
  induction inv with
  | nil => simp [invContains] at hc
  | cons x xs ih =>
      by_cases hx : x.blueprintId = bid
      · simp only [setFirstInvQty, beq_iff_eq, hx, if_true]
        rw [invQtyOf, List.find?_cons_of_pos _ (by simp [hx])]
      · have hc' : invContains xs bid = true := by
          simpa [invContains, List.any_cons, hx] using hc
        simp only [setFirstInvQty, beq_iff_eq, hx, if_false]
        rw [invQtyOf, List.find?_cons_of_neg _ (by simp [hx])]
        exact ih hc'

theorem find?_setFirstInvQty_other (inv : List SellerInventoryItem)
    (bid bid' : String) (q : Int) (hne : bid' ≠ bid) :
    invQtyOf (setFirstInvQty inv bid q) bid' = invQtyOf inv bid' := by
  induction inv with
  | nil => rfl
  | cons x xs ih =>
      by_cases hx : x.blueprintId = bid
      · have hb : ¬ bid = bid' := fun h => hne h.symm
        have hx' : ¬ (x.blueprintId = bid') := by
          rw [hx]; exact hb
        simp only [setFirstInvQty, beq_iff_eq, hx, if_true]
        rw [invQtyOf, invQtyOf, List.find?_cons_of_neg _ (by simp [hx', hb]),
            List.find?_cons_of_neg _ (by simp [hx', hb])]
      · simp only [setFirstInvQty, beq_iff_eq, hx, if_false]
        by_cases hx' : x.blueprintId = bid'
        · rw [invQtyOf, invQtyOf, List.find?_cons_of_pos _ (by simp [hx']),
              List.find?_cons_of_pos _ (by simp [hx'])]
        · rw [invQtyOf, invQtyOf, List.find?_cons_of_neg _ (by simp [hx']),
              List.find?_cons_of_neg _ (by simp [hx'])]
          exact ih

theorem invContains_false_find? (inv : List SellerInventoryItem) (bid : String)
    (hc : invContains inv bid = false) :
    inv.find? (fun i => i.blueprintId == bid) = none := by
  rw [List.find?_eq_none]
  intro i hi
  simp only [invContains, List.any_eq_false] at hc
  simpa using hc i hi

theorem invQtyOf_append_self (inv : List SellerInventoryItem) (bid : String)
    (q : Int) (h : inv.find? (fun i => i.blueprintId == bid) = none) :
    invQtyOf (inv ++ [⟨bid, q⟩]) bid = q := by
  induction inv with
  | nil => rw [List.nil_append, invQtyOf, List.find?_cons_of_pos _ (by simp)]
  | cons x xs ih =>
      by_cases hx : x.blueprintId = bid
      · rw [List.find?_cons_of_pos _ (by simp [hx])] at h
        cases h
      · rw [List.find?_cons_of_neg _ (by simp [hx])] at h
        rw [List.cons_append, invQtyOf, List.find?_cons_of_neg _ (by simp [hx])]
        exact ih h

theorem invQtyOf_append_other (inv : List SellerInventoryItem) (bid bid' : String)
    (q : Int) (hne : bid' ≠ bid) :
    invQtyOf (inv ++ [⟨bid, q⟩]) bid' = invQtyOf inv bid' := by
  have hb : ¬ bid = bid' := fun h => hne h.symm
  induction inv with
  | nil =>
      rw [List.nil_append, invQtyOf, List.find?_cons_of_neg _ (by simp [hb]), invQtyOf]
  | cons x xs ih =>
      by_cases hx : x.blueprintId = bid'
      · rw [List.cons_append, invQtyOf, List.find?_cons_of_pos _ (by simp [hx]),
            invQtyOf, List.find?_cons_of_pos _ (by simp [hx])]
      · rw [List.cons_append, invQtyOf, List.find?_cons_of_neg _ (by simp [hx]),
            invQtyOf, List.find?_cons_of_neg _ (by simp [hx])]
        exact ih

theorem applyInventoryUpdate_qty_self (inv : List SellerInventoryItem)
    (bid : String) (v : Int)
    (hwf : (inv.map (fun i => i.blueprintId)).Nodup) :
    invQtyOf (applyInventoryUpdate inv bid v) bid = max 0 v := by
  unfold applyInventoryUpdate
  by_cases h0 : max 0 v = 0
  · rw [if_pos h0, h0]
    have hnone : (removeFirstInv inv bid).find? (fun i => i.blueprintId == bid) = none := by
      rw [List.find?_eq_none]
      intro i hi
      simpa using removeFirstInv_no_entry inv bid hwf i hi
    simp [invQtyOf, hnone]
  · rw [if_neg h0]
    rcases hc : invContains inv bid with _ | _
    · rw [if_neg Bool.false_ne_true]
      exact invQtyOf_append_self inv bid (max 0 v) (invContains_false_find? inv bid hc)
    · rw [if_pos rfl]
      exact find?_setFirstInvQty_self inv bid (max 0 v) hc

theorem applyInventoryUpdate_qty_other (inv : List SellerInventoryItem)
    (bid bid' : String) (v : Int) (hne : bid' ≠ bid) :
    invQtyOf (applyInventoryUpdate inv bid v) bid' = invQtyOf inv bid' := by
  unfold applyInventoryUpdate
  by_cases h0 : max 0 v = 0
  · rw [if_pos h0]
    simp [invQtyOf, find?_removeFirstInv_other inv bid bid' hne]
  · rw [if_neg h0]
    rcases hc : invContains inv bid with _ | _
    · rw [if_neg Bool.false_ne_true]
      exact invQtyOf_append_other inv bid bid' (max 0 v) hne
    · rw [if_pos rfl]
      exact find?_setFirstInvQty_other inv bid bid' (max 0 v) hne

theorem getSellerById_id (store : SellerStore) (sid : String) (s : Seller)
    (h : getSellerById store sid = some s) : s.id = sid := by
  have := List.find?_some h
  simpa using this

theorem getSellerById_storeSetSeller (store : SellerStore) (s' t : Seller)
    (h : getSellerById store s'.id = some t) :
    getSellerById (storeSetSeller store s') s'.id = some s' := by
  induction store with
  | nil => cases h
  | cons u us ih =>
      by_cases hu : u.id = s'.id
      · unfold storeSetSeller
        rw [List.map_cons, if_pos (by simp [hu])]
        unfold getSellerById
        rw [List.find?_cons_of_pos _ (by simp)]
      · unfold getSellerById at h
        rw [List.find?_cons_of_neg _ (by simp [hu])] at h
        unfold storeSetSeller getSellerById
        rw [List.map_cons, if_neg (by simp [hu]), List.find?_cons_of_neg _ (by simp [hu])]
        exact ih h

theorem updateSellerInventoryItem_some (store : SellerStore)
    (sid bid : String) (v : Int) (now : String) (s : Seller)
    (hs : getSellerById store sid = some s) :
    updateSellerInventoryItem store sid bid v now =
      some (storeSetSeller store
        { s with inventory := applyInventoryUpdate s.inventory bid v,
                 updatedAt := now }) := by
  unfold updateSellerInventoryItem
  rw [hs]

theorem getSellerById_after_update (store store' : SellerStore)
    (sid bid : String) (v : Int) (now : String) (s : Seller)
    (hs : getSellerById store sid = some s)
    (hupd : updateSellerInventoryItem store sid bid v now = some store') :
    getSellerById store' sid =
      some { s with inventory := applyInventoryUpdate s.inventory bid v,
                    updatedAt := now } := by
  rw [updateSellerInventoryItem_some store sid bid v now s hs] at hupd
  have hid : s.id = sid := getSellerById_id store sid s hs
  cases hupd
  have h' : getSellerById store
      ({ s with inventory := applyInventoryUpdate s.inventory bid v,
                updatedAt := now } : Seller).id = some s := by
    simpa [hid] using hs
  simpa [hid] using getSellerById_storeSetSeller store _ s h'

theorem getQty_after_update_self (store store' : SellerStore)
    (sid bid : String) (v : Int) (now : String) (s : Seller)
    (hs : getSellerById store sid = some s)
    (hwf : (s.inventory.map (fun i => i.blueprintId)).Nodup)
    (hupd : updateSellerInventoryItem store sid bid v now = some store') :
    getSellerBlueprintQuantity store' sid bid = max 0 v := by
  unfold getSellerBlueprintQuantity
  rw [getSellerById_after_update store store' sid bid v now s hs hupd]
  exact applyInventoryUpdate_qty_self s.inventory bid v hwf

theorem getQty_after_update_other (store store' : SellerStore)
    (sid bid bid' : String) (v : Int) (now : String) (s : Seller)
    (hs : getSellerById store sid = some s)
    (hne : bid' ≠ bid)
    (hupd : updateSellerInventoryItem store sid bid v now = some store') :
    getSellerBlueprintQuantity store' sid bid' =
      getSellerBlueprintQuantity store sid bid' := by
  unfold getSellerBlueprintQuantity
  rw [getSellerById_after_update store store' sid bid v now s hs hupd, hs]
  exact applyInventoryUpdate_qty_other s.inventory bid bid' v hne

theorem invQtyOf_mem (inv : List SellerInventoryItem) (bid : String)
    (h : invQtyOf inv bid ≠ 0) :
    ∃ i ∈ inv, i.blueprintId = bid ∧ i.quantity = invQtyOf inv bid := by
  unfold invQtyOf at *
  cases hf : inv.find? (fun i => i.blueprintId == bid) with
  | none => rw [hf] at h; exact absurd rfl h
  | some i =>
      exact ⟨i, List.mem_of_find?_eq_some hf, by simpa using List.find?_some hf, rfl⟩

/-- C9: setQuantity (updateSellerInventoryItem) with qty ≤ 0 removes the
    inventory entry and getQuantity then returns 0; with qty > 0 it upserts the
    entry and getQuantity returns qty; other items keep their quantity; and
    getQuantity (getSellerBlueprintQuantity) returns 0 whenever the seller or
    the entry is absent. -/
theorem setQuantity_getQuantity_spec
    (store : SellerStore) (sellerId itemId now : String) (qty : Int) (s : Seller)
    (hs : getSellerById store sellerId = some s)
    (hwf : (s.inventory.map (fun i => i.blueprintId)).Nodup) :
    (∃ store', updateSellerInventoryItem store sellerId itemId qty now = some store' ∧
      (qty ≤ 0 → ∃ s', getSellerById store' sellerId = some s' ∧
         (∀ i ∈ s'.inventory, i.blueprintId ≠ itemId) ∧
         getSellerBlueprintQuantity store' sellerId itemId = 0) ∧
      (0 < qty → getSellerBlueprintQuantity store' sellerId itemId = qty ∧
         ∃ s', getSellerById store' sellerId = some s' ∧
           ∃ i ∈ s'.inventory, i.blueprintId = itemId ∧ i.quantity = qty) ∧
      (∀ other, other ≠ itemId →
         getSellerBlueprintQuantity store' sellerId other =
           getSellerBlueprintQuantity store sellerId other))
    ∧ (∀ store2 sid bid, getSellerById store2 sid = none →
         getSellerBlueprintQuantity store2 sid bid = 0)
    ∧ (∀ store2 sid bid s2, getSellerById store2 sid = some s2 →
         s2.inventory.find? (fun i => i.blueprintId == bid) = none →
         getSellerBlueprintQuantity store2 sid bid = 0) := by
  refine ⟨?_, ?_, ?_⟩
  · refine ⟨_, updateSellerInventoryItem_some store sellerId itemId qty now s hs, ?_, ?_, ?_⟩
    · intro hle
      have h0 : max 0 qty = 0 := by omega
      refine ⟨_, getSellerById_after_update store _ sellerId itemId qty now s hs
        (updateSellerInventoryItem_some store sellerId itemId qty now s hs), ?_, ?_⟩
      · intro i hi
        have hrm : applyInventoryUpdate s.inventory itemId qty =
            removeFirstInv s.inventory itemId := by
          unfold applyInventoryUpdate
          rw [if_pos h0]
        rw [hrm] at hi
        exact removeFirstInv_no_entry s.inventory itemId hwf i hi
      · have := getQty_after_update_self store _ sellerId itemId qty now s hs hwf
          (updateSellerInventoryItem_some store sellerId itemId qty now s hs)
        rw [this, h0]
    · intro hpos
      have hq : max 0 qty = qty := by omega
      have hget := getQty_after_update_self store _ sellerId itemId qty now s hs hwf
        (updateSellerInventoryItem_some store sellerId itemId qty now s hs)
      rw [hq] at hget
      refine ⟨hget, _, getSellerById_after_update store _ sellerId itemId qty now s hs
        (updateSellerInventoryItem_some store sellerId itemId qty now s hs), ?_⟩
      have hne : invQtyOf (applyInventoryUpdate s.inventory itemId qty) itemId ≠ 0 := by
        rw [applyInventoryUpdate_qty_self s.inventory itemId qty hwf, hq]
        omega
      rcases invQtyOf_mem _ itemId hne with ⟨i, hi, hbid, hqty⟩
      rw [applyInventoryUpdate_qty_self s.inventory itemId qty hwf, hq] at hqty
      exact ⟨i, hi, hbid, hqty⟩
    · intro other hne
      exact getQty_after_update_other store _ sellerId itemId other qty now s hs hne
        (updateSellerInventoryItem_some store sellerId itemId qty now s hs)
  · intro store2 sid bid h
    unfold getSellerBlueprintQuantity
    rw [h]
  · intro store2 sid bid s2 h hf
    unfold getSellerBlueprintQuantity
    rw [h]
    show invQtyOf s2.inventory bid = 0
    unfold invQtyOf
    rw [hf]

/-- Witness for C9: the concrete seller s1 holding five of "a"; setting "a"
    to 0 removes the entry and the quantity reads back 0. -/
theorem setQuantity_getQuantity_spec_witness :
    (∃ store', updateSellerInventoryItem [sSeller] "s1" "a" 0 "t1" = some store' ∧
      ((0 : Int) ≤ 0 → ∃ s', getSellerById store' "s1" = some s' ∧
         (∀ i ∈ s'.inventory, i.blueprintId ≠ "a") ∧
         getSellerBlueprintQuantity store' "s1" "a" = 0) ∧
      ((0 : Int) < 0 → getSellerBlueprintQuantity store' "s1" "a" = 0 ∧
         ∃ s', getSellerById store' "s1" = some s' ∧
           ∃ i ∈ s'.inventory, i.blueprintId = "a" ∧ i.quantity = 0) ∧
      (∀ other, other ≠ "a" →
         getSellerBlueprintQuantity store' "s1" other =
           getSellerBlueprintQuantity [sSeller] "s1" other))
    ∧ (∀ store2 sid bid, getSellerById store2 sid = none →
         getSellerBlueprintQuantity store2 sid bid = 0)
    ∧ (∀ store2 sid bid s2, getSellerById store2 sid = some s2 →
         s2.inventory.find? (fun i => i.blueprintId == bid) = none →
         getSellerBlueprintQuantity store2 sid bid = 0) :=
  setQuantity_getQuantity_spec [sSeller] "s1" "a" "t1" 0 sSeller
    (by decide) (by decide)

/-- C1 (code-bug exhibit): acceptOrderFull on a completed order whose single
    item "a" is already fulfilled by seller s1 succeeds and resets that item's
    claimStatus from "fulfilled" back to "claimed"; a subsequent
    fulfillOrderItem then succeeds again and decrements s1's inventory a second
    time (5 down to 3 although the claimed quantity 2 was already decremented at
    the first fulfillment), contradicting the one-way terminal fulfilled state. -/
theorem fulfilled_item_reset_by_acceptOrderFull :
    ((acceptOrderFull ⟨[sSeller], sOrderFulfilled⟩ "s1" "t1").1.success = true)
    ∧ ((acceptOrderFull ⟨[sSeller], sOrderFulfilled⟩ "s1" "t1").2.order.itemClaims.map
        (fun c => c.claimStatus)) = [ItemClaimStatus.claimed]
    ∧ ((fulfillOrderItem (acceptOrderFull ⟨[sSeller], sOrderFulfilled⟩ "s1" "t1").2
        "s1" "a" "t2").1.success = true)
    ∧ getSellerBlueprintQuantity
        (fulfillOrderItem (acceptOrderFull ⟨[sSeller], sOrderFulfilled⟩ "s1" "t1").2
          "s1" "a" "t2").2.sellers "s1" "a" = 3 := by
  decide

/-- C2 counterexample: on an admin-closed order that still carries s1's
    unfulfilled claim, fulfillOrderItem succeeds (it even moves the closed
    order to "completed" and decrements inventory), and fulfillAllClaimedItems
    succeeds as well — the claim that every Claim Engine seller operation is
    rejected on closed/cancelled orders is false. -/
theorem fulfillOrderItem_succeeds_on_closed_order :
    sClosedOrder.status = OrderStatus.closed
    ∧ ((fulfillOrderItem ⟨[sSeller], sClosedOrder⟩ "s1" "a" "t1").1.success = true)
    ∧ ((fulfillOrderItem ⟨[sSeller], sClosedOrder⟩ "s1" "a" "t1").2.order.status =
        OrderStatus.completed)
    ∧ getSellerBlueprintQuantity
        (fulfillOrderItem ⟨[sSeller], sClosedOrder⟩ "s1" "a" "t1").2.sellers "s1" "a" = 3
    ∧ ((fulfillAllClaimedItems ⟨[sSeller], sClosedOrder⟩ "s1" "t1").1.success = true) := by
  decide

/-- C2 (amended): on a closed or cancelled order, acceptOrderFull,
    claimOrderItems, releaseOrderItem, the seller path of closeOrder and
    cancelOrder are each rejected with the order-already-closed error and leave
    the state unchanged; fulfillOrderItem and fulfillAllClaimedItems carry no
    such guard (see the counterexample). -/
theorem terminal_order_rejects_claim_release_close
    (st : EngineState) (sellerId blueprintId now : String)
    (blueprintIds : Option (List String))
    (hterm : isTerminalStatus st.order.status = true) :
    acceptOrderFull st sellerId now = (failResult msgOrderClosed, st)
    ∧ claimOrderItems st sellerId blueprintIds now = (failResult msgOrderClosed, st)
    ∧ releaseOrderItem st sellerId blueprintId = (failResult msgOrderClosed, st)
    ∧ closeOrder st sellerId false now = (failResult msgOrderClosed, st)
    ∧ cancelOrder st now = (failResult msgOrderClosed, st) := by
  unfold acceptOrderFull claimOrderItems releaseOrderItem closeOrder cancelOrder
  simp [hterm]

/-- Witness for C2's amended theorem at the concrete closed order. -/
theorem terminal_order_rejects_witness :
    acceptOrderFull ⟨[sSeller], sClosedOrder⟩ "s1" "t1" =
      (failResult msgOrderClosed, ⟨[sSeller], sClosedOrder⟩)
    ∧ claimOrderItems ⟨[sSeller], sClosedOrder⟩ "s1" none "t1" =
      (failResult msgOrderClosed, ⟨[sSeller], sClosedOrder⟩)
    ∧ releaseOrderItem ⟨[sSeller], sClosedOrder⟩ "s1" "a" =
      (failResult msgOrderClosed, ⟨[sSeller], sClosedOrder⟩)
    ∧ closeOrder ⟨[sSeller], sClosedOrder⟩ "s1" false "t1" =
      (failResult msgOrderClosed, ⟨[sSeller], sClosedOrder⟩)
    ∧ cancelOrder ⟨[sSeller], sClosedOrder⟩ "t1" =
      (failResult msgOrderClosed, ⟨[sSeller], sClosedOrder⟩) :=
  terminal_order_rejects_claim_release_close ⟨[sSeller], sClosedOrder⟩
    "s1" "a" "t1" none (by decide)

/-- C10: when the seller id names no existing seller, or names one whose
    status is not "active", acceptOrderFull and claimOrderItems both fail and
    leave the whole state (order and inventories) unchanged. -/
theorem inactive_seller_cannot_claim
    (st : EngineState) (sellerId now : String) (blueprintIds : Option (List String))
    (hinactive : ∀ s, getSellerById st.sellers sellerId = some s →
      s.status ≠ SellerStatus.active) :
    ((acceptOrderFull st sellerId now).1.success = false
      ∧ (acceptOrderFull st sellerId now).2 = st)
    ∧ ((claimOrderItems st sellerId blueprintIds now).1.success = false
      ∧ (claimOrderItems st sellerId blueprintIds now).2 = st) := by
  constructor
  · unfold acceptOrderFull
    by_cases hterm : isTerminalStatus st.order.status = true
    · simp [hterm, failResult]
    · by_cases hass : assignedToOther st.order sellerId = true
      · simp [hterm, hass, failResult]
      · cases hfind : getSellerById st.sellers sellerId with
        | none => simp [hterm, hass, hfind, failResult]
        | some s =>
            have hno : canSellerReceiveOrders s = false := by
              unfold canSellerReceiveOrders
              simpa using hinactive s hfind
            simp [hterm, hass, hfind, hno, failResult]
  · unfold claimOrderItems
    by_cases hterm : isTerminalStatus st.order.status = true
    · simp [hterm, failResult]
    · by_cases hass : assignedToOther st.order sellerId = true
      · simp [hterm, hass, failResult]
      · cases hfind : getSellerById st.sellers sellerId with
        | none => simp [hterm, hass, hfind, failResult]
        | some s =>
            have hno : canSellerReceiveOrders s = false := by
              unfold canSellerReceiveOrders
              simpa using hinactive s hfind
            simp [hterm, hass, hfind, hno, failResult]

/-- Witness for C10: seller s2 exists but is pending verification; both calls
    fail and change nothing. -/
theorem inactive_seller_cannot_claim_witness :
    ((acceptOrderFull ⟨[sPending], sClaimedOrder⟩ "s2" "t1").1.success = false
      ∧ (acceptOrderFull ⟨[sPending], sClaimedOrder⟩ "s2" "t1").2 =
          ⟨[sPending], sClaimedOrder⟩)
    ∧ ((claimOrderItems ⟨[sPending], sClaimedOrder⟩ "s2" none "t1").1.success = false
      ∧ (claimOrderItems ⟨[sPending], sClaimedOrder⟩ "s2" none "t1").2 =
          ⟨[sPending], sClaimedOrder⟩) :=
  inactive_seller_cannot_claim ⟨[sPending], sClaimedOrder⟩ "s2" "t1" none
    (fun s hs => by
      have hs' : (some sPending : Option Seller) = some s := hs
      cases Option.some.inj hs'
      decide)

/-- C6: requiresMultipleSellers is true exactly when no single active seller
    covers every requested item at its full quantity (so one item covered by
    several sellers gives false), and processOrder overrides the displayed
    offer with the fixed disclosure string exactly when that check is true,
    otherwise keeps the trimmed buyer text, which originalOffer always holds. -/
theorem requiresMultipleSellers_iff_offer_override
    (store : SellerStore) (items : List RequestedItem)
    (catalog : List Blueprint) (req : OrderRequest) (orderId createdAt : String) :
    (requiresMultipleSellers store items = true ↔
      ¬ ∃ s ∈ store, s.status = SellerStatus.active ∧
        ∀ it ∈ items, it.quantity ≤ invQtyOf s.inventory it.blueprintId)
    ∧ (∀ it : RequestedItem, ∀ s ∈ store, s.status = SellerStatus.active →
        it.quantity ≤ invQtyOf s.inventory it.blueprintId →
        requiresMultipleSellers store [it] = false)
    ∧ ((processOrder store catalog req orderId createdAt).offer =
        if requiresMultipleSellers store
            (req.items.map (fun item => ⟨item.id, item.quantity⟩)) = true
        then MULTI_SELLER_OFFER_MESSAGE
        else (processOrder store catalog req orderId createdAt).originalOffer)
    ∧ (processOrder store catalog req orderId createdAt).originalOffer = req.offer.trim
    ∧ (processOrder store catalog req orderId createdAt).isMultiSeller =
        requiresMultipleSellers store
          (req.items.map (fun item => ⟨item.id, item.quantity⟩)) := by
  have hiff : ∀ its : List RequestedItem, requiresMultipleSellers store its = true ↔
      ¬ ∃ s ∈ store, s.status = SellerStatus.active ∧
        ∀ it ∈ its, it.quantity ≤ invQtyOf s.inventory it.blueprintId := by
    intro its
    unfold requiresMultipleSellers getActiveSellers sellerCoversItem
    constructor
    · intro h hex
      rcases hex with ⟨s, hmem, hact, hcov⟩
      rw [Bool.not_eq_true', List.any_eq_false] at h
      have hfalse := h s (List.mem_filter.mpr ⟨hmem, by simp [hact]⟩)
      have htrue : its.all (fun item =>
          decide (item.quantity ≤ invQtyOf s.inventory item.blueprintId)) = true := by
        rw [List.all_eq_true]
        intro it hit
        simpa using hcov it hit
      rw [htrue] at hfalse
      exact hfalse rfl
    · intro h
      rw [Bool.not_eq_true', List.any_eq_false]
      intro s hmem
      rcases List.mem_filter.mp hmem with ⟨hmem', hact⟩
      rw [List.all_eq_true]
      push_neg at h
      rcases h s hmem' (by simpa using hact) with ⟨it, hit, hlt⟩
      intro hall
      exact absurd (hall it hit) (by simpa using hlt)
  refine ⟨hiff items, ?_, ?_, rfl, rfl⟩
  · intro it s hmem hact hcov
    rw [Bool.eq_false_iff]
    intro htrue
    exact (hiff [it]).mp htrue ⟨s, hmem, hact, by simpa using hcov⟩
  · rfl

theorem update_none_iff (store : SellerStore) (sid bid : String) (v : Int)
    (now : String) :
    updateSellerInventoryItem store sid bid v now = none ↔
      getSellerById store sid = none := by
  unfold updateSellerInventoryItem
  cases h : getSellerById store sid <;> simp

theorem update_preserves_presence (store store' : SellerStore)
    (sid bid : String) (v : Int) (now : String)
    (h : updateSellerInventoryItem store sid bid v now = some store') :
    (getSellerById store' sid).isSome := by
  cases hs : getSellerById store sid with
  | none =>
      rw [(update_none_iff store sid bid v now).mpr hs] at h
      cases h
  | some s =>
      rw [getSellerById_after_update store store' sid bid v now s hs h]
      rfl

theorem fulfillPass_no_error_of_present (sellerId now : String)
    (claims : List OrderItemClaim) :
    ∀ sellers : SellerStore, (getSellerById sellers sellerId).isSome →
      ∀ r, fulfillPass sellerId now sellers claims ≠ Except.error r := by
  induction claims with
  | nil => intro sellers _ r h; cases h
  | cons c cs ih =>
      intro sellers hpresent r h
      unfold fulfillPass at h
      by_cases htgt : fulfillTarget sellerId c = true
      · rw [if_pos htgt] at h
        cases hupd : updateSellerInventoryItem sellers sellerId c.blueprintId
            (getSellerBlueprintQuantity sellers sellerId c.blueprintId -
              jsOrQty c.claimedQuantity c.requestedQty) now with
        | none =>
            rcases Option.isSome_iff_exists.mp hpresent with ⟨s, hs⟩
            rw [(update_none_iff sellers sellerId c.blueprintId _ now).mp hupd] at hs
            cases hs
        | some sellers2 =>
            cases hrec : fulfillPass sellerId now sellers2 cs with
            | error r2 =>
                exact ih sellers2
                  (update_preserves_presence sellers sellers2 sellerId
                    c.blueprintId _ now hupd) r2 hrec
            | ok out =>
                rcases out with ⟨sf, claims2, ids⟩
                simp only [hupd, hrec] at h
                cases h
      · rw [if_neg htgt] at h
        cases hrec : fulfillPass sellerId now sellers cs with
        | error r2 =>
            exact ih sellers hpresent r2 hrec
        | ok out =>
            rcases out with ⟨sf, claims2, ids⟩
            simp only [hrec] at h
            cases h

theorem fulfillPass_error_first (sellerId now : String)
    (claims : List OrderItemClaim) :
    ∀ (sellers sellers' : SellerStore) (ids : List String) (e : String),
      fulfillPass sellerId now sellers claims = Except.error (sellers', ids, e) →
      sellers' = sellers ∧ ids = [] := by
  induction claims with
  | nil => intro sellers sellers' ids e h; cases h
  | cons c cs ih =>
      intro sellers sellers' ids e h
      unfold fulfillPass at h
      by_cases htgt : fulfillTarget sellerId c = true
      · rw [if_pos htgt] at h
        cases hupd : updateSellerInventoryItem sellers sellerId c.blueprintId
            (getSellerBlueprintQuantity sellers sellerId c.blueprintId -
              jsOrQty c.claimedQuantity c.requestedQty) now with
        | none =>
            simp only [hupd, Except.error.injEq, Prod.mk.injEq] at h
            exact ⟨h.1.symm, h.2.1.symm⟩
        | some sellers2 =>
            cases hrec : fulfillPass sellerId now sellers2 cs with
            | error r2 =>
                exact absurd hrec
                  (fulfillPass_no_error_of_present sellerId now cs sellers2
                    (update_preserves_presence sellers sellers2 sellerId
                      c.blueprintId _ now hupd) r2)
            | ok out =>
                rcases out with ⟨sf, claims2, ids2⟩
                simp only [hupd, hrec] at h
                cases h
      · rw [if_neg htgt] at h
        cases hrec : fulfillPass sellerId now sellers cs with
        | error r2 =>
            rcases r2 with ⟨sf, ids2, e2⟩
            simp only [hrec, Except.error.injEq, Prod.mk.injEq] at h
            rcases h with ⟨h1, h2, h3⟩
            have hrest := ih sellers sf ids2 e2 hrec
            rw [h1, h2] at hrest
            exact hrest
        | ok out =>
            rcases out with ⟨sf, claims2, ids2⟩
            simp only [hrec] at h
            cases h

/-- C3: fulfillAllClaimedItems checks inventory sufficiency for every item the
    seller has claimed before mutating anything: if any pre-check fails the
    call fails with the whole state unchanged. Should the second pass stop on
    an inventory-update failure, the call reports failure, keeps the seller
    store exactly as written so far (nothing rolled back) and skips the order
    write; the last conjuncts record that in this sequential model such a
    failure can only happen before the first decrement (the ids fulfilled
    before the failure are [] and the store is untouched), since an inventory
    update fails only when the seller record is missing, which is decided
    uniformly for the whole call. -/
theorem fulfillAllClaimedItems_precheck_atomic (st : EngineState)
    (sellerId now : String) :
    (∀ e, fulfillPrecheck st.sellers sellerId
        (st.order.itemClaims.filter (fulfillTarget sellerId)) = some e →
      fulfillAllClaimedItems st sellerId now = (failResult e, st))
    ∧ (∀ sellers' ids e,
        fulfillPass sellerId now st.sellers st.order.itemClaims =
          Except.error (sellers', ids, e) →
        (fulfillAllClaimedItems st sellerId now).1.success = false
        ∧ (fulfillAllClaimedItems st sellerId now).2.sellers = sellers'
        ∧ (fulfillAllClaimedItems st sellerId now).2.order = st.order
        ∧ ids = [] ∧ sellers' = st.sellers) := by
  constructor
  · intro e hpre
    unfold fulfillAllClaimedItems
    by_cases hempty :
        (st.order.itemClaims.filter (fulfillTarget sellerId)).isEmpty = true
    · rw [List.isEmpty_iff] at hempty
      rw [hempty] at hpre
      cases hpre
    · simp only [hempty, Bool.false_eq_true, if_false, hpre]
  · intro sellers' ids e hpass
    obtain ⟨hsell, hids⟩ :=
      fulfillPass_error_first sellerId now st.order.itemClaims st.sellers
        sellers' ids e hpass
    refine ⟨?_, ?_, ?_, hids, hsell⟩ <;>
    · unfold fulfillAllClaimedItems
      by_cases hempty :
          (st.order.itemClaims.filter (fulfillTarget sellerId)).isEmpty = true
      · simp [hempty, failResult, hsell]
      · cases hpre : fulfillPrecheck st.sellers sellerId
            (st.order.itemClaims.filter (fulfillTarget sellerId)) with
        | some e2 => simp [hempty, hpre, failResult, hsell]
        | none => simp [hempty, hpre, hpass, failResult, hsell]

/-- Witness-style instance for C3 at a concrete state: the pre-check fails
    (claimed quantity 9 against stock 5) and the call changes nothing. -/
theorem fulfillAllClaimedItems_precheck_witness :
    fulfillAllClaimedItems ⟨[sSeller], sOrderTooBig⟩ "s1" "t1" =
      (failResult (msgFulfillAllInsufficient "A" 5 9), ⟨[sSeller], sOrderTooBig⟩) :=
  (fulfillAllClaimedItems_precheck_atomic ⟨[sSeller], sOrderTooBig⟩ "s1" "t1").1
    (msgFulfillAllInsufficient "A" 5 9) (by decide)

theorem findClaim_updateFirstClaim (claims : List OrderItemClaim) (bid : String)
    (f : OrderItemClaim → OrderItemClaim) (c : OrderItemClaim)
    (hf : ∀ d, (f d).blueprintId = d.blueprintId)
    (h : findClaim claims bid = some c) :
    findClaim (updateFirstClaim claims bid f) bid = some (f c) := by
  induction claims with
  | nil => cases h
  | cons x xs ih =>
      by_cases hx : x.blueprintId = bid
      · unfold findClaim at h
        rw [List.find?_cons_of_pos _ (by simp [hx])] at h
        injection h with h'
        subst h'
        unfold updateFirstClaim findClaim
        rw [if_pos (by simp [hx]), List.find?_cons_of_pos _ (by simp [hf, hx])]
      · unfold findClaim at h
        rw [List.find?_cons_of_neg _ (by simp [hx])] at h
        unfold updateFirstClaim findClaim
        rw [if_neg (by simp [hx]), List.find?_cons_of_neg _ (by simp [hx])]
        exact ih h

/-- C4: for a claim held by this seller, not yet fulfilled, with claimed
    quantity q (nonzero) covered by current stock, fulfillOrderItem succeeds,
    decrements exactly q from the seller's inventory and marks the item
    fulfilled; calling it again immediately fails with the state-conflict
    error "Позиція вже виконана" and changes neither the order nor any
    inventory, so the decrement happens at most once. -/
theorem fulfillOrderItem_no_double_decrement
    (st : EngineState) (sellerId bid now1 now2 : String)
    (c : OrderItemClaim) (q : Int) (s : Seller)
    (hc : findClaim st.order.itemClaims bid = some c)
    (hmine : c.claimedBySellerId = some sellerId)
    (hnf : c.claimStatus ≠ ItemClaimStatus.fulfilled)
    (hq : c.claimedQuantity = some q) (hq0 : q ≠ 0)
    (hs : getSellerById st.sellers sellerId = some s)
    (hwf : (s.inventory.map (fun i => i.blueprintId)).Nodup)
    (hinv : q ≤ getSellerBlueprintQuantity st.sellers sellerId bid) :
    ((fulfillOrderItem st sellerId bid now1).1.success = true)
    ∧ getSellerBlueprintQuantity (fulfillOrderItem st sellerId bid now1).2.sellers
        sellerId bid = getSellerBlueprintQuantity st.sellers sellerId bid - q
    ∧ (∃ c', findClaim (fulfillOrderItem st sellerId bid now1).2.order.itemClaims bid
        = some c' ∧ c'.claimStatus = ItemClaimStatus.fulfilled)
    ∧ fulfillOrderItem (fulfillOrderItem st sellerId bid now1).2 sellerId bid now2 =
        (failResult msgAlreadyFulfilled, (fulfillOrderItem st sellerId bid now1).2) := by
  have hupd := updateSellerInventoryItem_some st.sellers sellerId bid
    (getSellerBlueprintQuantity st.sellers sellerId bid - q) now1 s hs
  have h1 : (c.claimedBySellerId != some sellerId) = false := by simp [hmine]
  have h2 : (c.claimStatus == ItemClaimStatus.fulfilled) = false := by
    simp [hnf]
  have h3 : jsOrQty c.claimedQuantity c.requestedQty = q := by
    simp [jsOrQty, hq, hq0]
  have h4 : ¬ (getSellerBlueprintQuantity st.sellers sellerId bid < q) :=
    not_lt.mpr hinv
  have hr1 : fulfillOrderItem st sellerId bid now1 =
      (⟨true, none, some [bid]⟩,
       ⟨storeSetSeller st.sellers
          { s with
              inventory :=
                applyInventoryUpdate s.inventory bid
                  (getSellerBlueprintQuantity st.sellers sellerId bid - q),
              updatedAt := now1 },
        { st.order with
            itemClaims :=
              updateFirstClaim st.order.itemClaims bid (fun d =>
                { d with
                    claimStatus := ItemClaimStatus.fulfilled,
                    fulfilledAt := some now1 }),
            status :=
              if (updateFirstClaim st.order.itemClaims bid (fun d =>
                    { d with
                        claimStatus := ItemClaimStatus.fulfilled,
                        fulfilledAt := some now1 })).all
                  (fun d => d.claimStatus == ItemClaimStatus.fulfilled)
              then OrderStatus.completed else st.order.status }⟩) := by
    unfold fulfillOrderItem
    simp only [hc, h1, Bool.false_eq_true, if_false, h2, h3, if_neg h4, hupd]
  have hfound2 : findClaim (updateFirstClaim st.order.itemClaims bid (fun d =>
      { d with claimStatus := ItemClaimStatus.fulfilled,
               fulfilledAt := some now1 })) bid =
      some { c with claimStatus := ItemClaimStatus.fulfilled,
                    fulfilledAt := some now1 } :=
    findClaim_updateFirstClaim st.order.itemClaims bid _ c (fun _ => rfl) hc
  have hget := getQty_after_update_self st.sellers _ sellerId bid
    (getSellerBlueprintQuantity st.sellers sellerId bid - q) now1 s hs hwf hupd
  refine ⟨by rw [hr1], ?_, ?_, ?_⟩
  · have hmax : max 0 (getSellerBlueprintQuantity st.sellers sellerId bid - q) =
        getSellerBlueprintQuantity st.sellers sellerId bid - q := by omega
    rw [hr1]
    exact hget.trans hmax
  · refine ⟨{ c with
                claimStatus := ItemClaimStatus.fulfilled,
                fulfilledAt := some now1 }, ?_, rfl⟩
    rw [hr1]
    exact hfound2
  · rw [hr1]
    unfold fulfillOrderItem
    simp only [hfound2, hmine, bne_self_eq_false, Bool.false_eq_true, if_false,
      beq_self_eq_true, if_true]

/-- Witness for C4: s1 fulfills its claim on "a" (quantity 2 against stock 5);
    the second call fails and changes nothing. -/
theorem fulfillOrderItem_no_double_decrement_witness :
    ((fulfillOrderItem ⟨[sSeller], sClaimedOrder⟩ "s1" "a" "t1").1.success = true)
    ∧ getSellerBlueprintQuantity
        (fulfillOrderItem ⟨[sSeller], sClaimedOrder⟩ "s1" "a" "t1").2.sellers "s1" "a"
        = getSellerBlueprintQuantity [sSeller] "s1" "a" - 2
    ∧ (∃ c', findClaim
        (fulfillOrderItem ⟨[sSeller], sClaimedOrder⟩ "s1" "a" "t1").2.order.itemClaims
        "a" = some c' ∧ c'.claimStatus = ItemClaimStatus.fulfilled)
    ∧ fulfillOrderItem (fulfillOrderItem ⟨[sSeller], sClaimedOrder⟩ "s1" "a" "t1").2
        "s1" "a" "t2" =
      (failResult msgAlreadyFulfilled,
       (fulfillOrderItem ⟨[sSeller], sClaimedOrder⟩ "s1" "a" "t1").2) :=
  fulfillOrderItem_no_double_decrement ⟨[sSeller], sClaimedOrder⟩ "s1" "a" "t1" "t2"
    sClaimedItem 2 sSeller (by decide) (by decide) (by decide) (by decide)
    (by decide) (by decide) (by decide) (by decide)

/-- C7: releaseOrderItem on an item claimed by this seller and not fulfilled
    (order not closed/cancelled) succeeds, touches no inventory, reverts the
    item to unclaimed clearing every claim field; if this seller held the
    whole-order assignment and no non-unclaimed item of theirs remains, the
    assignment fields are cleared; and if no non-unclaimed item remains at
    all, the order status reverts to open. -/
theorem releaseOrderItem_spec
    (st : EngineState) (sellerId bid : String) (c : OrderItemClaim)
    (hterm : isTerminalStatus st.order.status = false)
    (hc : findClaim st.order.itemClaims bid = some c)
    (hmine : c.claimedBySellerId = some sellerId)
    (hnf : c.claimStatus ≠ ItemClaimStatus.fulfilled) :
    ((releaseOrderItem st sellerId bid).1 = ⟨true, none, some [bid]⟩)
    ∧ (releaseOrderItem st sellerId bid).2.sellers = st.sellers
    ∧ (∃ c', findClaim (releaseOrderItem st sellerId bid).2.order.itemClaims bid
        = some c'
        ∧ c'.claimStatus = ItemClaimStatus.unclaimed
        ∧ c'.claimedBySellerId = none ∧ c'.claimedBySellerDiscordId = none
        ∧ c'.claimedQuantity = none ∧ c'.claimedAt = none)
    ∧ (st.order.assignedSellerId = some sellerId →
        ((releaseOrderItem st sellerId bid).2.order.itemClaims.any (fun d =>
            d.claimedBySellerId == some sellerId &&
            d.claimStatus != ItemClaimStatus.unclaimed)) = false →
        (releaseOrderItem st sellerId bid).2.order.assignedSellerId = none
        ∧ (releaseOrderItem st sellerId bid).2.order.assignedSellerDiscordId = none
        ∧ (releaseOrderItem st sellerId bid).2.order.assignedAt = none)
    ∧ (((releaseOrderItem st sellerId bid).2.order.itemClaims.any (fun d =>
          d.claimStatus != ItemClaimStatus.unclaimed)) = false →
        (releaseOrderItem st sellerId bid).2.order.status = OrderStatus.open_) := by
  have h1 : (c.claimedBySellerId != some sellerId) = false := by simp [hmine]
  have h2 : (c.claimStatus == ItemClaimStatus.fulfilled) = false := by simp [hnf]
  have hclaims : (releaseOrderItem st sellerId bid).2.order.itemClaims =
      updateFirstClaim st.order.itemClaims bid (fun d =>
        { d with claimStatus := ItemClaimStatus.unclaimed,
                 claimedBySellerId := none,
                 claimedBySellerDiscordId := none,
                 claimedQuantity := none,
                 claimedAt := none }) := by
    unfold releaseOrderItem
    simp only [hterm, Bool.false_eq_true, if_false, hc, h1, h2]
    split <;> (try split) <;> (try split) <;> rfl
  have hr1 : (releaseOrderItem st sellerId bid).1 = ⟨true, none, some [bid]⟩ := by
    unfold releaseOrderItem
    simp only [hterm, Bool.false_eq_true, if_false, hc, h1, h2]
  have hsell : (releaseOrderItem st sellerId bid).2.sellers = st.sellers := by
    unfold releaseOrderItem
    simp only [hterm, Bool.false_eq_true, if_false, hc, h1, h2]
  refine ⟨hr1, hsell, ?_, ?_, ?_⟩
  · refine ⟨{ c with
                claimStatus := ItemClaimStatus.unclaimed,
                claimedBySellerId := none,
                claimedBySellerDiscordId := none,
                claimedQuantity := none,
                claimedAt := none }, ?_, rfl, rfl, rfl, rfl, rfl⟩
    rw [hclaims]
    exact findClaim_updateFirstClaim st.order.itemClaims bid _ c (fun _ => rfl) hc
  · intro hass hstill
    rw [hclaims] at hstill
    have hassb : (st.order.assignedSellerId == some sellerId) = true := by
      simp [hass]
    unfold releaseOrderItem
    simp only [hterm, Bool.false_eq_true, if_false, hc, h1, h2, hassb, if_true,
      hstill, Bool.not_false]
    split <;> exact ⟨rfl, rfl, rfl⟩
  · intro hany
    rw [hclaims] at hany
    unfold releaseOrderItem
    simp only [hterm, Bool.false_eq_true, if_false, hc, h1, h2, hany,
      Bool.not_false, if_true]

/-- Witness for C7: s1 releases its claim on the one-item order it is assigned
    to; the claim fields clear, the assignment clears and the order reopens. -/
theorem releaseOrderItem_spec_witness :
    ((releaseOrderItem ⟨[sSeller], sAssignedOrder⟩ "s1" "a").1 =
        ⟨true, none, some ["a"]⟩)
    ∧ (releaseOrderItem ⟨[sSeller], sAssignedOrder⟩ "s1" "a").2.sellers = [sSeller]
    ∧ (∃ c', findClaim
        (releaseOrderItem ⟨[sSeller], sAssignedOrder⟩ "s1" "a").2.order.itemClaims "a"
        = some c'
        ∧ c'.claimStatus = ItemClaimStatus.unclaimed
        ∧ c'.claimedBySellerId = none ∧ c'.claimedBySellerDiscordId = none
        ∧ c'.claimedQuantity = none ∧ c'.claimedAt = none)
    ∧ (sAssignedOrder.assignedSellerId = some "s1" →
        ((releaseOrderItem ⟨[sSeller], sAssignedOrder⟩ "s1" "a").2.order.itemClaims.any
          (fun d => d.claimedBySellerId == some "s1" &&
            d.claimStatus != ItemClaimStatus.unclaimed)) = false →
        (releaseOrderItem ⟨[sSeller], sAssignedOrder⟩ "s1" "a").2.order.assignedSellerId
          = none
        ∧ (releaseOrderItem ⟨[sSeller], sAssignedOrder⟩
            "s1" "a").2.order.assignedSellerDiscordId = none
        ∧ (releaseOrderItem ⟨[sSeller], sAssignedOrder⟩ "s1" "a").2.order.assignedAt
          = none)
    ∧ (((releaseOrderItem ⟨[sSeller], sAssignedOrder⟩ "s1" "a").2.order.itemClaims.any
          (fun d => d.claimStatus != ItemClaimStatus.unclaimed)) = false →
        (releaseOrderItem ⟨[sSeller], sAssignedOrder⟩ "s1" "a").2.order.status =
          OrderStatus.open_) :=
  releaseOrderItem_spec ⟨[sSeller], sAssignedOrder⟩ "s1" "a" sClaimedItem
    (by decide) (by decide) (by decide) (by decide)

theorem acceptItemsCheck_ok_all (sellers : SellerStore) (sid : String)
    (claims : List OrderItemClaim) :
    ∀ ids, acceptItemsCheck sellers sid claims = Except.ok ids →
    ∀ c ∈ claims,
      (c.claimStatus = ItemClaimStatus.unclaimed ∨ c.claimedBySellerId = some sid)
      ∧ c.requestedQty ≤ getSellerBlueprintQuantity sellers sid c.blueprintId := by
  induction claims with
  | nil => intro ids _ c hc; cases hc
  | cons c cs ih =>
      intro ids h c' hc'
      unfold acceptItemsCheck at h
      by_cases hb : (c.claimStatus != ItemClaimStatus.unclaimed &&
          c.claimedBySellerId != some sid) = true
      · rw [if_pos hb] at h; cases h
      · rw [if_neg hb] at h
        by_cases hq : getSellerBlueprintQuantity sellers sid c.blueprintId <
            c.requestedQty
        · rw [if_pos hq] at h; cases h
        · rw [if_neg hq] at h
          cases hrec : acceptItemsCheck sellers sid cs with
          | error e => rw [hrec] at h; cases h
          | ok rest =>
              rcases List.mem_cons.mp hc' with hh | hh
              · subst hh
                refine ⟨?_, not_lt.mp hq⟩
                rcases Bool.and_eq_false_iff.mp (Bool.not_eq_true _ ▸ hb) with hx | hx
                · exact Or.inl (by simpa using hx)
                · exact Or.inr (by simpa using hx)
              · exact ih rest hrec c' hh

theorem acceptItemsCheck_error_exists (sellers : SellerStore) (sid : String)
    (claims : List OrderItemClaim) :
    ∀ e, acceptItemsCheck sellers sid claims = Except.error e →
    ∃ c ∈ claims,
      ¬((c.claimStatus = ItemClaimStatus.unclaimed ∨ c.claimedBySellerId = some sid)
        ∧ c.requestedQty ≤ getSellerBlueprintQuantity sellers sid c.blueprintId) := by
  induction claims with
  | nil => intro e h; cases h
  | cons c cs ih =>
      intro e h
      unfold acceptItemsCheck at h
      by_cases hb : (c.claimStatus != ItemClaimStatus.unclaimed &&
          c.claimedBySellerId != some sid) = true
      · refine ⟨c, List.mem_cons_self c cs, ?_⟩
        obtain ⟨hx, hy⟩ : (c.claimStatus != ItemClaimStatus.unclaimed) = true ∧
            (c.claimedBySellerId != some sid) = true := by simpa using hb
        intro hcontra
        rcases hcontra.1 with hz | hz
        · exact absurd hz (by simpa using hx)
        · exact absurd hz (by simpa using hy)
      · rw [if_neg hb] at h
        by_cases hq : getSellerBlueprintQuantity sellers sid c.blueprintId <
            c.requestedQty
        · exact ⟨c, List.mem_cons_self c cs, fun hcontra =>
            absurd hcontra.2 (not_le.mpr hq)⟩
        · rw [if_neg hq] at h
          cases hrec : acceptItemsCheck sellers sid cs with
          | error e2 =>
              rw [hrec] at h
              injection h with h'
              subst h'
              rcases ih e2 hrec with ⟨c2, hc2, hbad⟩
              exact ⟨c2, List.mem_cons_of_mem c hc2, hbad⟩
          | ok rest => rw [hrec] at h; cases h

/-- C5: for an existing active seller (and a well-formed assignee field, never
    the empty string), acceptOrderFull fails with no change at all whenever the
    order is terminal, assigned to a different seller, some item is neither
    unclaimed nor already claimed by this seller, or stock is short for some
    item; otherwise it succeeds and in one step assigns the order, claims every
    item at its requested quantity and moves the order to in_progress. -/
theorem acceptOrderFull_atomic_spec
    (st : EngineState) (sellerId now : String) (s : Seller)
    (hs : getSellerById st.sellers sellerId = some s)
    (hact : s.status = SellerStatus.active)
    (hassign : st.order.assignedSellerId ≠ some "") :
    ((isTerminalStatus st.order.status = true
      ∨ (∃ a, st.order.assignedSellerId = some a ∧ a ≠ sellerId)
      ∨ (∃ c ∈ st.order.itemClaims,
          ¬(c.claimStatus = ItemClaimStatus.unclaimed
            ∨ c.claimedBySellerId = some sellerId))
      ∨ (∃ c ∈ st.order.itemClaims,
          getSellerBlueprintQuantity st.sellers sellerId c.blueprintId <
            c.requestedQty))
      → (acceptOrderFull st sellerId now).1.success = false
        ∧ (acceptOrderFull st sellerId now).2 = st)
    ∧ (¬(isTerminalStatus st.order.status = true
      ∨ (∃ a, st.order.assignedSellerId = some a ∧ a ≠ sellerId)
      ∨ (∃ c ∈ st.order.itemClaims,
          ¬(c.claimStatus = ItemClaimStatus.unclaimed
            ∨ c.claimedBySellerId = some sellerId))
      ∨ (∃ c ∈ st.order.itemClaims,
          getSellerBlueprintQuantity st.sellers sellerId c.blueprintId <
            c.requestedQty))
      → (acceptOrderFull st sellerId now).1.success = true
        ∧ (acceptOrderFull st sellerId now).2.sellers = st.sellers
        ∧ (acceptOrderFull st sellerId now).2.order =
          { st.order with
              assignedSellerId := some sellerId,
              assignedSellerDiscordId := some s.discordId,
              assignedAt := some now,
              status := OrderStatus.in_progress,
              itemClaims := st.order.itemClaims.map (fun c =>
                { c with
                    claimStatus := ItemClaimStatus.claimed,
                    claimedBySellerId := some sellerId,
                    claimedBySellerDiscordId := some s.discordId,
                    claimedQuantity := some c.requestedQty,
                    claimedAt := some now }) }) := by
  have hcan : canSellerReceiveOrders s = true := by
    simp [canSellerReceiveOrders, hact]
  constructor
  · intro hbad
    by_cases hterm : isTerminalStatus st.order.status = true
    · unfold acceptOrderFull
      simp only [hterm, if_true]
      constructor <;> first | rfl | trivial
    · by_cases hass : assignedToOther st.order sellerId = true
      · unfold acceptOrderFull
        simp only [hterm, Bool.false_eq_true, if_false, hass, if_true]
        constructor <;> first | rfl | trivial
      · cases hchk : acceptItemsCheck st.sellers sellerId st.order.itemClaims with
        | error e =>
            unfold acceptOrderFull
            simp only [hterm, Bool.false_eq_true, if_false, hass, hs, hcan,
              Bool.not_true, hchk]
            constructor <;> first | rfl | trivial
        | ok ids =>
            exfalso
            have hall := acceptItemsCheck_ok_all st.sellers sellerId
              st.order.itemClaims ids hchk
            rcases hbad with h | ⟨a, ha, hane⟩ | ⟨c, hcmem, hcbad⟩ | ⟨c, hcmem, hcqty⟩
            · exact hterm h
            · refine hass ?_
              have ha0 : a ≠ "" := fun h0 => hassign (h0 ▸ ha)
              simp [assignedToOther, ha, ha0, hane]
            · exact hcbad (hall c hcmem).1
            · exact absurd (hall c hcmem).2 (not_le.mpr hcqty)
  · intro hgood
    have hterm : isTerminalStatus st.order.status = false := by
      cases h : isTerminalStatus st.order.status
      · rfl
      · exact absurd (Or.inl h) hgood
    have hass : assignedToOther st.order sellerId = false := by
      cases ha : st.order.assignedSellerId with
      | none => simp [assignedToOther, ha]
      | some a =>
          by_cases haid : a = sellerId
          · simp [assignedToOther, ha, haid]
          · exact absurd (Or.inr (Or.inl ⟨a, ha, haid⟩)) hgood
    cases hchk : acceptItemsCheck st.sellers sellerId st.order.itemClaims with
    | error e =>
        exfalso
        rcases acceptItemsCheck_error_exists st.sellers sellerId
          st.order.itemClaims e hchk with ⟨c, hcmem, hbad⟩
        rcases not_and_or.mp hbad with hx | hx
        · exact hgood (Or.inr (Or.inr (Or.inl ⟨c, hcmem, hx⟩)))
        · exact hgood (Or.inr (Or.inr (Or.inr ⟨c, hcmem, not_le.mp hx⟩)))
    | ok ids =>
        unfold acceptOrderFull
        simp only [hterm, Bool.false_eq_true, if_false, hass, hs, hcan,
          Bool.not_true, hchk]
        refine ⟨?_, ?_, ?_⟩ <;> first | rfl | trivial

/-- Witness for C5: on the open one-item order, active seller s1 with stock 5
    hits no failure condition, so acceptOrderFull succeeds with the full
    atomic effect. -/
theorem acceptOrderFull_atomic_spec_witness :
    ((isTerminalStatus sOpenOrder.status = true
      ∨ (∃ a, sOpenOrder.assignedSellerId = some a ∧ a ≠ "s1")
      ∨ (∃ c ∈ sOpenOrder.itemClaims,
          ¬(c.claimStatus = ItemClaimStatus.unclaimed
            ∨ c.claimedBySellerId = some "s1"))
      ∨ (∃ c ∈ sOpenOrder.itemClaims,
          getSellerBlueprintQuantity [sSeller] "s1" c.blueprintId < c.requestedQty))
      → (acceptOrderFull ⟨[sSeller], sOpenOrder⟩ "s1" "t1").1.success = false
        ∧ (acceptOrderFull ⟨[sSeller], sOpenOrder⟩ "s1" "t1").2 =
            ⟨[sSeller], sOpenOrder⟩)
    ∧ (¬(isTerminalStatus sOpenOrder.status = true
      ∨ (∃ a, sOpenOrder.assignedSellerId = some a ∧ a ≠ "s1")
      ∨ (∃ c ∈ sOpenOrder.itemClaims,
          ¬(c.claimStatus = ItemClaimStatus.unclaimed
            ∨ c.claimedBySellerId = some "s1"))
      ∨ (∃ c ∈ sOpenOrder.itemClaims,
          getSellerBlueprintQuantity [sSeller] "s1" c.blueprintId < c.requestedQty))
      → (acceptOrderFull ⟨[sSeller], sOpenOrder⟩ "s1" "t1").1.success = true
        ∧ (acceptOrderFull ⟨[sSeller], sOpenOrder⟩ "s1" "t1").2.sellers = [sSeller]
        ∧ (acceptOrderFull ⟨[sSeller], sOpenOrder⟩ "s1" "t1").2.order =
          { sOpenOrder with
              assignedSellerId := some "s1",
              assignedSellerDiscordId := some sSeller.discordId,
              assignedAt := some "t1",
              status := OrderStatus.in_progress,
              itemClaims := sOpenOrder.itemClaims.map (fun c =>
                { c with
                    claimStatus := ItemClaimStatus.claimed,
                    claimedBySellerId := some "s1",
                    claimedBySellerDiscordId := some sSeller.discordId,
                    claimedQuantity := some c.requestedQty,
                    claimedAt := some "t1" }) }) :=
  acceptOrderFull_atomic_spec ⟨[sSeller], sOpenOrder⟩ "s1" "t1" sSeller
    (by decide) (by decide) (by decide)

/-- The spec's visibility sentence, stated on its own for comparison with the
    code's filter: a seller sees an item iff they claimed it, or it is
    unclaimed and their current stock is positive, or they are the whole-order
    assignee. -/
def specItemVisible (sellers : SellerStore) (order : StoredOrder)
    (sellerId : String) (c : OrderItemClaim) : Prop :=
  c.claimedBySellerId = some sellerId
  ∨ (c.claimStatus = ItemClaimStatus.unclaimed
      ∧ 0 < getSellerBlueprintQuantity sellers sellerId c.blueprintId)
  ∨ order.assignedSellerId = some sellerId

instance (sellers : SellerStore) (order : StoredOrder) (sellerId : String)
    (c : OrderItemClaim) : Decidable (specItemVisible sellers order sellerId c) := by
  unfold specItemVisible
  exact inferInstance

theorem filterMapCongrMem {α β : Type} (l : List α) (f g : α → Option β)
    (h : ∀ a ∈ l, f a = g a) : l.filterMap f = l.filterMap g := by
  induction l with
  | nil => rfl
  | cons x xs ih =>
      rw [List.filterMap_cons, List.filterMap_cons, h x (List.mem_cons_self x xs),
        ih (fun a ha => h a (List.mem_cons_of_mem x ha))]

theorem buildViewLoop_items (sellers : SellerStore) (sellerId : String)
    (isAssignedToMe : Bool) (claims : List OrderItemClaim) :
    (buildViewLoop sellers sellerId isAssignedToMe claims).items =
      claims.filterMap (fun c =>
        if (c.claimedBySellerId == some sellerId) ||
           (c.claimStatus == ItemClaimStatus.unclaimed &&
             decide (0 < getSellerBlueprintQuantity sellers sellerId c.blueprintId)) ||
           isAssignedToMe
        then some (mkViewItem sellers sellerId c) else none) := by
  induction claims with
  | nil => rfl
  | cons c cs ih =>
      rw [List.filterMap_cons]
      by_cases hsee : ((c.claimedBySellerId == some sellerId) ||
          (c.claimStatus == ItemClaimStatus.unclaimed &&
            decide (0 < getSellerBlueprintQuantity sellers sellerId c.blueprintId)) ||
          isAssignedToMe) = true
      · unfold buildViewLoop
        simp only [hsee, Bool.not_true, Bool.false_eq_true, if_false, if_true]
        rw [ih]
      · unfold buildViewLoop
        simp only [Bool.not_eq_true] at hsee
        simp only [hsee, Bool.not_false, if_true, Bool.false_eq_true, if_false]
        exact ih

/-- C8: in every seller order view an item appears exactly when the seller
    claimed it, it is unclaimed with positive stock for this seller, or the
    seller is the whole-order assignee (the items list is precisely the
    filter-projection of the order's claims under that condition); a view with
    zero visible items is not built at all, and getOrdersForSeller is exactly
    the per-order projection with the null entries dropped, so such an order is
    omitted from the list rather than shown with an empty item list. -/
theorem seller_view_visibility_spec
    (sellers : SellerStore) (orders : List StoredOrder) (order : StoredOrder)
    (sellerId did : String) (s : Seller)
    (hs : getSellerById sellers sellerId = some s)
    (hact : s.status = SellerStatus.active) :
    (∀ v, buildSellerOrderView sellers order sellerId did = some v →
        v.items = order.itemClaims.filterMap (fun c =>
          if specItemVisible sellers order sellerId c
          then some (mkViewItem sellers sellerId c) else none)
        ∧ v.items ≠ [])
    ∧ (buildSellerOrderView sellers order sellerId did = none ↔
        ∀ c ∈ order.itemClaims, ¬ specItemVisible sellers order sellerId c)
    ∧ ((∀ c ∈ order.itemClaims, ¬ specItemVisible sellers order sellerId c) →
        sellerOrderListEntry sellers sellerId s order = none)
    ∧ getOrdersForSeller sellers orders sellerId =
        orders.filterMap (sellerOrderListEntry sellers sellerId s) := by
  have hcond : ∀ c : OrderItemClaim,
      ((c.claimedBySellerId == some sellerId) ||
        (c.claimStatus == ItemClaimStatus.unclaimed &&
          decide (0 < getSellerBlueprintQuantity sellers sellerId c.blueprintId)) ||
        (order.assignedSellerId == some sellerId)) = true ↔
      specItemVisible sellers order sellerId c := by
    intro c
    simp [specItemVisible, or_assoc]
  have hitems : (buildViewLoop sellers sellerId
      (order.assignedSellerId == some sellerId) order.itemClaims).items =
      order.itemClaims.filterMap (fun c =>
        if specItemVisible sellers order sellerId c
        then some (mkViewItem sellers sellerId c) else none) := by
    rw [buildViewLoop_items]
    refine filterMapCongrMem _ _ _ (fun c _ => ?_)
    by_cases hv : specItemVisible sellers order sellerId c
    · rw [if_pos ((hcond c).mpr hv), if_pos hv]
    · rw [if_neg (fun ht => hv ((hcond c).mp ht)), if_neg hv]
  have hempty : (buildSellerOrderView sellers order sellerId did = none ↔
      ∀ c ∈ order.itemClaims, ¬ specItemVisible sellers order sellerId c) := by
    unfold buildSellerOrderView
    by_cases he : (buildViewLoop sellers sellerId
        (order.assignedSellerId == some sellerId) order.itemClaims).items.isEmpty = true
    · simp only [he, if_true]
      rw [List.isEmpty_iff, hitems, List.filterMap_eq_nil_iff] at he
      constructor
      · intro _ c hc
        have := he c hc
        by_cases hv : specItemVisible sellers order sellerId c
        · rw [if_pos hv] at this; cases this
        · exact hv
      · intro _; trivial
    · simp only [he, Bool.false_eq_true, if_false]
      constructor
      · intro h; cases h
      · intro hall
        exfalso
        refine he ?_
        rw [List.isEmpty_iff, hitems, List.filterMap_eq_nil_iff]
        intro c hc
        rw [if_neg (hall c hc)]
  refine ⟨?_, hempty, ?_, ?_⟩
  · intro v hv
    unfold buildSellerOrderView at hv
    by_cases he : (buildViewLoop sellers sellerId
        (order.assignedSellerId == some sellerId) order.itemClaims).items.isEmpty = true
    · rw [if_pos he] at hv; cases hv
    · rw [if_neg he] at hv
      injection hv with hv'
      subst hv'
      refine ⟨hitems, ?_⟩
      rw [hitems] at he
      intro hnil
      exact he (by rw [List.isEmpty_iff]; exact hitems ▸ hnil)
  · intro hall
    unfold sellerOrderListEntry
    by_cases h1 : isTerminalStatus order.status = true
    · rw [if_pos h1]
    · rw [if_neg h1]
      by_cases h2 : isOrderClosedBySeller order sellerId = true
      · rw [if_pos h2]
      · rw [if_neg h2]
        by_cases h3 : assignedToOther order sellerId = true
        · rw [if_pos h3]
        · rw [if_neg h3]
          exact hempty.mpr hall
  · unfold getOrdersForSeller
    rw [hs]
    have hcan : canSellerReceiveOrders s = true := by
      simp [canSellerReceiveOrders, hact]
    simp only [hcan, Bool.not_true, Bool.false_eq_true, if_false]

/-- Witness for C8: seller s1 and a store with the closed order plus the open
    order; the projection equations hold at these concrete inputs. -/
theorem seller_view_visibility_spec_witness :
    (∀ v, buildSellerOrderView [sSeller] sOpenOrder "s1" "d1" = some v →
        v.items = sOpenOrder.itemClaims.filterMap (fun c =>
          if specItemVisible [sSeller] sOpenOrder "s1" c
          then some (mkViewItem [sSeller] "s1" c) else none)
        ∧ v.items ≠ [])
    ∧ (buildSellerOrderView [sSeller] sOpenOrder "s1" "d1" = none ↔
        ∀ c ∈ sOpenOrder.itemClaims, ¬ specItemVisible [sSeller] sOpenOrder "s1" c)
    ∧ ((∀ c ∈ sOpenOrder.itemClaims, ¬ specItemVisible [sSeller] sOpenOrder "s1" c) →
        sellerOrderListEntry [sSeller] "s1" sSeller sOpenOrder = none)
    ∧ getOrdersForSeller [sSeller] [sOpenOrder, sClosedOrder] "s1" =
        [sOpenOrder, sClosedOrder].filterMap
          (sellerOrderListEntry [sSeller] "s1" sSeller) :=
  seller_view_visibility_spec [sSeller] [sOpenOrder, sClosedOrder] sOpenOrder
    "s1" "d1" sSeller (by decide) (by decide)

end BPTrade
